import Mathlib

/-!
Shallow embedding of the Granite glTF 2.0 scene exporter
(src/scene_formats/gltf_export.cpp) and verification of the frozen claims
about it.

Modelling conventions:
* C++ machine floats (only ever compared for equality or copied by this code)
  are modelled as rationals (`F := Rat`).
* Byte buffers are `List Nat` (each element a byte value).
* The streaming 64-bit `Util::Hasher` lives in hashmap.hpp which is outside
  the exported sources; every fingerprint computation is therefore modelled as
  an uninterpreted hash-function parameter collected in the `Oracles`
  structure.  All theorems are proved for an arbitrary choice of these
  functions, matching the spec's stance that hash collisions are treated as
  equality.
* Code that throws (`throw invalid_argument(...)`) is modelled in the
  `Except String` monad.
* External collaborators (filesystem stat/open/map, the worker pool, image
  loading, JSON text serialization, float sqrt) are modelled as oracle
  parameters as well.
-/

/-- Machine float fields of the exporter, modelled as rationals; the exporter
only copies them and compares them for equality. -/
abbrev F := Rat

/-- Error type for modelled C++ exceptions. -/
abbrev Err := String

structure V3 where
  x : F
  y : F
  z : F
deriving DecidableEq

structure V4 where
  x : F
  y : F
  z : F
  w : F
deriving DecidableEq

/-- Axis-aligned bounding box with minimum and maximum corner. -/
structure AABB where
  lo : V3
  hi : V3
deriving DecidableEq

/-- The Vulkan vertex formats appearing in the accessor tables of
gltf_export.cpp, plus VK_FORMAT_UNDEFINED and one representative format
(R8G8B8A8_SRGB) that is outside the closed table. -/
inductive VkFormat where
  | undefined
  | r32Sfloat | r32g32Sfloat | r32g32b32Sfloat | r32g32b32a32Sfloat
  | r8Unorm | r8g8Unorm | r8g8b8Unorm | r8g8b8a8Unorm
  | r8Uint | r8g8Uint | r8g8b8Uint | r8g8b8a8Uint
  | r8Snorm | r8g8Snorm | r8g8b8Snorm | r8g8b8a8Snorm
  | r8Sint | r8g8Sint | r8g8b8Sint | r8g8b8a8Sint
  | r16Unorm | r16g16Unorm | r16g16b16Unorm | r16g16b16a16Unorm
  | r16Uint | r16g16Uint | r16g16b16Uint | r16g16b16a16Uint
  | r16Snorm | r16g16Snorm | r16g16b16Snorm | r16g16b16a16Snorm
  | r16Sint | r16g16Sint | r16g16b16Sint | r16g16b16a16Sint
  | r32Uint | r32g32Uint | r32g32b32Uint | r32g32b32a32Uint
  | r32Sint | r32g32Sint | r32g32b32Sint | r32g32b32a32Sint
  | r8g8b8a8Srgb
deriving DecidableEq

def GL_BYTE : Nat := 0x1400
def GL_UNSIGNED_BYTE : Nat := 0x1401
def GL_SHORT : Nat := 0x1402
def GL_UNSIGNED_SHORT : Nat := 0x1403
def GL_INT : Nat := 0x1404
def GL_UNSIGNED_INT : Nat := 0x1405
def GL_FLOAT : Nat := 0x1406
def GL_REPEAT : Nat := 0x2901
def GL_CLAMP_TO_EDGE : Nat := 0x812F
def GL_NEAREST : Nat := 0x2600
def GL_LINEAR : Nat := 0x2601
def GL_NEAREST_MIPMAP_NEAREST : Nat := 0x2700
def GL_LINEAR_MIPMAP_NEAREST : Nat := 0x2701
def GL_NEAREST_MIPMAP_LINEAR : Nat := 0x2702
def GL_LINEAR_MIPMAP_LINEAR : Nat := 0x2703

/-- VkComponentSwizzle; `identity` models VK_COMPONENT_SWIZZLE_IDENTITY and
any other value outside the R/G/B/A/ONE/ZERO range. -/
inductive VkComponentSwizzle where
  | identity
  | r
  | g
  | b
  | a
  | one
  | zero
deriving DecidableEq

structure VkComponentMapping where
  r : VkComponentSwizzle
  g : VkComponentSwizzle
  b : VkComponentSwizzle
  a : VkComponentSwizzle
deriving DecidableEq

/-- The identity RGBA mapping. -/
def idMapping : VkComponentMapping := ⟨.r, .g, .b, .a⟩

/-- Vulkan::StockSampler presets used by the exporter. -/
inductive StockSampler where
  | trilinearWrap
  | trilinearClamp
  | linearWrap
  | linearClamp
  | nearestClamp
  | nearestWrap
deriving DecidableEq

/-- Material::Textures; `count` models the out-of-range value
Material::Textures::Count that the compression planner rejects. -/
inductive TextureRole where
  | baseColor
  | normal
  | metallicRoughness
  | occlusion
  | emissive
  | count
deriving DecidableEq

inductive TextureCompressionFamily where
  | uncompressed
  | bc
  | astc
deriving DecidableEq

inductive TextureCompression where
  | uncompressed
  | bc1
  | bc3
  | bc4
  | bc5
  | bc6h
  | bc7
  | astc4x4
  | astc5x5
  | astc6x6
  | astc8x8
deriving DecidableEq

inductive TextureMode where
  | srgb
  | srgba
  | rgb
  | rgba
  | hdr
deriving DecidableEq

/-- DrawPipeline; `solid` models DrawPipeline::Opaque. -/
inductive DrawPipeline where
  | solid
  | alphaTest
  | alphaBlend
deriving DecidableEq

/-- VkIndexType restricted to the two values the exporter distinguishes. -/
inductive IndexType where
  | u16
  | u32
deriving DecidableEq

/-- MeshAttribute semantic slots.  The numeric values of the C++ enum live in
an external header; the claims are insensitive to the slot numbering, which
only feeds the attribute bitmask and the loop order. -/
inductive MeshAttribute where
  | position
  | normal
  | tangent
  | uv
  | vertexColor
  | boneIndex
  | boneWeights
deriving DecidableEq

def MeshAttribute.idx : MeshAttribute → Nat
  | .position => 0
  | .normal => 1
  | .tangent => 2
  | .uv => 3
  | .vertexColor => 4
  | .boneIndex => 5
  | .boneWeights => 6

/-- Iteration order of the `for (i = 0; i < ecast(MeshAttribute::Count); i++)`
loop in emit_mesh. -/
def attrList : List MeshAttribute :=
  [.position, .normal, .tangent, .uv, .vertexColor, .boneIndex, .boneWeights]

/-- gli::format values produced by get_compression_format. -/
inductive GliFormat where
  | rgba8SrgbPack8
  | rgba8UnormPack8
  | rgbaDxt1SrgbBlock8
  | rgbaDxt1UnormBlock8
  | rgbDxt1SrgbBlock8
  | rgbDxt1UnormBlock8
  | rgbaDxt5SrgbBlock16
  | rgbaDxt5UnormBlock16
  | rAti1nUnormBlock8
  | rgAti2nUnormBlock16
  | rgbaBpSrgbBlock16
  | rgbaBpUnormBlock16
  | rgbBpUfloatBlock16
  | rgbaAstc4x4SrgbBlock16
  | rgbaAstc4x4UnormBlock16
  | rgbaAstc5x5SrgbBlock16
  | rgbaAstc5x5UnormBlock16
  | rgbaAstc6x6SrgbBlock16
  | rgbaAstc6x6UnormBlock16
  | rgbaAstc8x8SrgbBlock16
  | rgbaAstc8x8UnormBlock16
  | undefinedFormat
deriving DecidableEq

/-- A JSON value, modelling the shape of the rapidjson document (member order
preserved; the textual serialization is an external collaborator). -/
inductive Json where
  | str : String → Json
  | num : F → Json
  | jbool : Bool → Json
  | arr : List Json → Json
  | obj : List (String × Json) → Json

def jn (n : Nat) : Json := .num (n : F)

def ji (i : Int) : Json := .num (i : F)

def jf (x : F) : Json := .num x

/-- Scene input structures (gltf.hpp side), restricted to the fields the
exporter reads. -/
structure AttributeLayout where
  format : VkFormat
  offset : Nat
deriving DecidableEq

def defaultLayout : AttributeLayout := ⟨.undefined, 0⟩

structure Mesh where
  topology : Nat
  index_type : IndexType
  position_stride : Nat
  attribute_stride : Nat
  attribute_layout : List AttributeLayout
  positions : List Nat
  indices : List Nat
  attributes : List Nat
  count : Nat
  static_aabb : AABB
  has_material : Bool
  material_index : Nat
deriving DecidableEq

def defaultMesh : Mesh :=
  { topology := 0, index_type := .u16, position_stride := 0,
    attribute_stride := 0, attribute_layout := List.replicate 7 defaultLayout,
    positions := [], indices := [], attributes := [], count := 0,
    static_aabb := ⟨⟨0, 0, 0⟩, ⟨0, 0, 0⟩⟩, has_material := false,
    material_index := 0 }

structure MaterialTexture where
  path : String
  swizzle : VkComponentMapping
deriving DecidableEq

structure MaterialInfo where
  base_color : MaterialTexture
  normal : MaterialTexture
  metallic_roughness : MaterialTexture
  occlusion : MaterialTexture
  emissive : MaterialTexture
  sampler : StockSampler
  uniform_base_color : V4
  uniform_emissive_color : V3
  uniform_metallic : F
  uniform_roughness : F
  lod_bias : F
  normal_scale : F
  pipeline : DrawPipeline
  two_sided : Bool
deriving DecidableEq

def defaultMaterialInfo : MaterialInfo :=
  { base_color := ⟨"", idMapping⟩, normal := ⟨"", idMapping⟩,
    metallic_roughness := ⟨"", idMapping⟩, occlusion := ⟨"", idMapping⟩,
    emissive := ⟨"", idMapping⟩, sampler := .trilinearWrap,
    uniform_base_color := ⟨1, 1, 1, 1⟩, uniform_emissive_color := ⟨0, 0, 0⟩,
    uniform_metallic := 1, uniform_roughness := 1, lod_bias := 0,
    normal_scale := 1, pipeline := .solid, two_sided := false }

structure Transform where
  rotation : V4
  scale : V3
  translation : V3
deriving DecidableEq

structure Node where
  children : List Nat
  meshes : List Nat
  transform : Transform
deriving DecidableEq

inductive CameraType where
  | perspective
  | orthographic
deriving DecidableEq

structure CameraInfo where
  type : CameraType
  aspect_ratio : F
  yfov : F
  znear : F
  zfar : F
  xmag : F
  ymag : F
  attached_to_node : Bool
  node_index : Nat
deriving DecidableEq

inductive LightType where
  | spot
  | point
  | directional
  | ambient
deriving DecidableEq

structure LightInfo where
  type : LightType
  color : V3
  constant_falloff : F
  linear_falloff : F
  quadratic_falloff : F
  inner_cone : F
  outer_cone : F
  attached_to_node : Bool
  node_index : Nat
deriving DecidableEq

structure SceneInformation where
  materials : List MaterialInfo
  meshes : List Mesh
  nodes : List Node
  cameras : List CameraInfo
  lights : List LightInfo
deriving DecidableEq

structure EnvironmentOptions where
  cube : String
  reflection : String
  irradiance : String
  intensity : F
  fog_color : V3
  fog_falloff : F
  compression : TextureCompressionFamily
  texcomp_quality : Nat
deriving DecidableEq

structure ExportOptions where
  threads : Nat
  compression : TextureCompressionFamily
  texcomp_quality : Nat
  environment : EnvironmentOptions
deriving DecidableEq

/-- Emitted (cache payload) structures of RemapState. -/
structure BufferView where
  offset : Nat
  length : Nat
  stride : Nat
deriving DecidableEq

structure EmittedMesh where
  index_accessor : Int
  material : Int
  attribute_mask : Nat
  attribute_accessor : List Int
deriving DecidableEq

def defaultEmittedMesh : EmittedMesh :=
  { index_accessor := 0, material := 0, attribute_mask := 0,
    attribute_accessor := List.replicate 7 0 }

structure EmittedEnvironment where
  cube : Int
  reflection : Int
  irradiance : Int
  intensity : F
  fog_color : V3
  fog_falloff : F
deriving DecidableEq

structure EmittedAccessor where
  view : Nat
  count : Nat
  type : String
  component : Nat
  offset : Nat
  aabb : AABB
  normalized : Bool
  use_aabb : Bool
deriving DecidableEq

def defaultEmittedAccessor : EmittedAccessor :=
  { view := 0, count := 0, type := "", component := 0, offset := 0,
    aabb := ⟨⟨0, 0, 0⟩, ⟨0, 0, 0⟩⟩, normalized := false, use_aabb := false }

structure EmittedMaterial where
  base_color : Int
  normal : Int
  metallic_roughness : Int
  occlusion : Int
  emissive : Int
  uniform_base_color : V4
  uniform_emissive_color : V3
  uniform_metallic : F
  uniform_roughness : F
  lod_bias : F
  normal_scale : F
  pipeline : DrawPipeline
  two_sided : Bool
deriving DecidableEq

/-- Value-initialized EmittedMaterial, matching the member initializers of the
C++ struct (all texture slots -1, uniform defaults, Opaque, single-sided). -/
def defaultEmittedMaterial : EmittedMaterial :=
  { base_color := -1, normal := -1, metallic_roughness := -1, occlusion := -1,
    emissive := -1, uniform_base_color := ⟨1, 1, 1, 1⟩,
    uniform_emissive_color := ⟨0, 0, 0⟩, uniform_metallic := 1,
    uniform_roughness := 1, lod_bias := 0, normal_scale := 1,
    pipeline := .solid, two_sided := false }

structure EmittedTexture where
  image : Nat
  sampler : Nat
deriving DecidableEq

structure EmittedImage where
  source_path : String
  target_relpath : String
  target_mime : String
  compression : TextureCompressionFamily
  compression_quality : Nat
  mode : TextureMode
  type : TextureRole
  swizzle : VkComponentMapping
deriving DecidableEq

structure EmittedSampler where
  mag_filter : Nat
  min_filter : Nat
  wrap_s : Nat
  wrap_t : Nat
deriving DecidableEq

/-- Remap table of the content-addressed cache (values stored instead of the
C++ pointers). -/
structure Remap (α : Type) where
  to_index : List Nat
  hashmap : List (Nat × Nat)
  info : List α
deriving DecidableEq

structure RemapState where
  meshR : Remap Mesh
  materialR : Remap MaterialInfo
  glb_buffer_data : List Nat
  buffer_hash : List (Nat × Nat)
  buffer_views : List BufferView
  accessor_hash : List (Nat × Nat)
  accessor_cache : List EmittedAccessor
  mesh_hash : List Nat
  mesh_cache : List EmittedMesh
  environment_cache : List EmittedEnvironment
  material_hash : List Nat
  material_cache : List EmittedMaterial
  texture_hash : List (Nat × Nat)
  texture_cache : List EmittedTexture
  image_hash : List (Nat × Nat)
  image_cache : List EmittedImage
  sampler_hash : List (Nat × Nat)
  sampler_cache : List EmittedSampler
  mesh_group_hash : List (Nat × Nat)
  mesh_group_cache : List (List Nat)
deriving DecidableEq

def initialRemapState : RemapState :=
  { meshR := ⟨[], [], []⟩, materialR := ⟨[], [], []⟩, glb_buffer_data := [],
    buffer_hash := [], buffer_views := [], accessor_hash := [],
    accessor_cache := [], mesh_hash := [], mesh_cache := [],
    environment_cache := [], material_hash := [], material_cache := [],
    texture_hash := [], texture_cache := [], image_hash := [],
    image_cache := [], sampler_hash := [], sampler_cache := [],
    mesh_group_hash := [], mesh_group_cache := [] }

/-- Oracle parameters: the streaming Util::Hasher fingerprints (one function
per fingerprinted key shape) and the external collaborators. -/
structure Oracles where
  hashMesh : Mesh → Option Nat → Nat
  hashMaterial : MaterialInfo → Nat
  hashBuffer : List Nat → Nat → Nat
  hashAccessor : Nat → VkFormat → Nat → Nat → Nat → Nat
  hashSampler : StockSampler → Nat
  hashImage : String → TextureRole → TextureCompressionFamily → Nat →
      TextureMode → Nat
  hashTexture : Nat → Nat → Nat
  hashMeshGroup : List Nat → Nat
  analyze : EmittedImage → VkComponentMapping
  serializeJson : Json → List Nat
  sqrtF : F → F
  canOpen : Bool
  canMap : Bool

/-- Association-list lookup modelling Util::HashMap find. -/
def alookup (k : Nat) : List (Nat × Nat) → Option Nat
  | [] => none
  | (k', v) :: rest => if k' = k then some v else alookup k rest

/-- List indexing with default (models vector indexing / operator[]);
a custom function so that proofs control its definitional unfolding. -/
def nthD : List α → Nat → α → α
  | [], _, d => d
  | x :: _, 0, _ => x
  | _ :: xs, n + 1, d => nthD xs n d

/-- std::vector resize that never shrinks (all call sites resize to
max(size, n)); new entries are value-initialized to `d`. -/
def resizeTo (n : Nat) (d : α) (l : List α) : List α :=
  l ++ List.replicate (n - l.length) d

/-- Generic filter pass of RemapState::filter_input. -/
def filter_input (hash : α → Nat) (input : List α) : Remap α :=
  input.foldl
    (fun r i =>
      let h := hash i
      match alookup h r.hashmap with
      | some idx => { r with to_index := r.to_index ++ [idx] }
      | none =>
          { to_index := r.to_index ++ [r.info.length],
            hashmap := (h, r.info.length) :: r.hashmap,
            info := r.info ++ [i] })
    ⟨[], [], []⟩

/-- Alignment of the blob write offset in emit_buffer:
`offset = (offset + 15) & ~15`. -/
def align16 (n : Nat) : Nat := (n + 15) / 16 * 16

/-- RemapState::emit_buffer. -/
def emit_buffer (o : Oracles) (bytes : List Nat) (stride : Nat)
    (s : RemapState) : Nat × RemapState :=
  let key := o.hashBuffer bytes stride
  match alookup key s.buffer_hash with
  | some i => (i, s)
  | none =>
      let index := s.buffer_views.length
      let offset := align16 s.glb_buffer_data.length
      (index,
        { s with
          glb_buffer_data :=
            s.glb_buffer_data ++
              List.replicate (offset - s.glb_buffer_data.length) 0 ++ bytes,
          buffer_views :=
            s.buffer_views ++ [⟨offset, bytes.length, stride⟩],
          buffer_hash := (key, index) :: s.buffer_hash })

/-- get_accessor_type.  Note that the source lists R32G32B32_UINT and
R32G32B32_SINT in the VEC4 group; the model reproduces this. -/
def get_accessor_type : VkFormat → Except Err String
  | .r32Sfloat | .r8Unorm | .r8Uint | .r8Snorm | .r8Sint
  | .r16Unorm | .r16Uint | .r16Snorm | .r16Sint
  | .r32Uint | .r32Sint => .ok "SCALAR"
  | .r32g32Sfloat | .r8g8Unorm | .r8g8Uint | .r8g8Snorm | .r8g8Sint
  | .r16g16Uint | .r16g16Sint | .r16g16Snorm | .r16g16Unorm
  | .r32g32Uint | .r32g32Sint => .ok "VEC2"
  | .r32g32b32Sfloat | .r8g8b8Unorm | .r8g8b8Uint | .r8g8b8Snorm | .r8g8b8Sint
  | .r16g16b16Unorm | .r16g16b16Uint | .r16g16b16Snorm
  | .r16g16b16Sint => .ok "VEC3"
  | .r32g32b32a32Sfloat | .r8g8b8a8Unorm | .r8g8b8a8Uint | .r8g8b8a8Snorm
  | .r8g8b8a8Sint | .r16g16b16a16Unorm | .r16g16b16a16Uint
  | .r16g16b16a16Snorm | .r16g16b16a16Sint
  | .r32g32b32Uint | .r32g32b32a32Uint | .r32g32b32Sint
  | .r32g32b32a32Sint => .ok "VEC4"
  | _ => .error "Unsupported format."

def get_accessor_normalized : VkFormat → Bool
  | .r8Unorm | .r8g8Unorm | .r8g8b8Unorm | .r8g8b8a8Unorm
  | .r8Snorm | .r8g8Snorm | .r8g8b8Snorm | .r8g8b8a8Snorm
  | .r16Unorm | .r16g16Unorm | .r16g16b16Unorm | .r16g16b16a16Unorm
  | .r16Snorm | .r16g16Snorm | .r16g16b16Snorm | .r16g16b16a16Snorm => true
  | _ => false

/-- get_accessor_component.  The source has, in the 8-bit SNORM/SINT group,
`return GL_UNSIGNED_BYTE;` immediately followed by an unreachable
`return GL_BYTE;`; by C++ semantics the function returns GL_UNSIGNED_BYTE
for those formats, which this model reproduces. -/
def get_accessor_component : VkFormat → Except Err Nat
  | .r32Sfloat | .r32g32Sfloat | .r32g32b32Sfloat
  | .r32g32b32a32Sfloat => .ok GL_FLOAT
  | .r8Unorm | .r8g8Unorm | .r8g8b8Unorm | .r8g8b8a8Unorm
  | .r8Uint | .r8g8Uint | .r8g8b8Uint | .r8g8b8a8Uint => .ok GL_UNSIGNED_BYTE
  | .r8Snorm | .r8g8Snorm | .r8g8b8Snorm | .r8g8b8a8Snorm
  | .r8Sint | .r8g8Sint | .r8g8b8Sint | .r8g8b8a8Sint => .ok GL_UNSIGNED_BYTE
  | .r16Unorm | .r16g16Unorm | .r16g16b16Unorm | .r16g16b16a16Unorm
  | .r16Uint | .r16g16Uint | .r16g16b16Uint
  | .r16g16b16a16Uint => .ok GL_UNSIGNED_SHORT
  | .r16Snorm | .r16g16Snorm | .r16g16b16Snorm | .r16g16b16a16Snorm
  | .r16Sint | .r16g16Sint | .r16g16b16Sint | .r16g16b16a16Sint => .ok GL_SHORT
  | .r32Uint | .r32g32Uint | .r32g32b32Uint
  | .r32g32b32a32Uint => .ok GL_UNSIGNED_INT
  | .r32Sint | .r32g32Sint | .r32g32b32Sint | .r32g32b32a32Sint => .ok GL_INT
  | _ => .error "Unsupported format."

/-- RemapState::emit_accessor.  On a cache hit the format is not inspected at
all (set_accessor_type only runs on the miss path). -/
def emit_accessor (o : Oracles) (view_index : Nat) (format : VkFormat)
    (offset stride count : Nat) (s : RemapState) :
    Except Err (Nat × RemapState) :=
  let key := o.hashAccessor view_index format offset stride count
  match alookup key s.accessor_hash with
  | some i => .ok (i, s)
  | none =>
      match get_accessor_component format, get_accessor_type format with
      | .ok comp, .ok ty =>
          let index := s.accessor_cache.length
          .ok (index,
            { s with
              accessor_cache := s.accessor_cache ++
                [{ view := view_index, count := count, type := ty,
                   component := comp, offset := offset,
                   aabb := ⟨⟨0, 0, 0⟩, ⟨0, 0, 0⟩⟩,
                   normalized := get_accessor_normalized format,
                   use_aabb := false }],
              accessor_hash := (key, index) :: s.accessor_hash })
      | .error e, _ => .error e
      | _, .error e => .error e

/-- Static filter/wrap table of RemapState::emit_sampler. -/
def sampler_record : StockSampler → EmittedSampler
  | .trilinearWrap =>
      ⟨GL_LINEAR, GL_LINEAR_MIPMAP_LINEAR, GL_REPEAT, GL_REPEAT⟩
  | .trilinearClamp =>
      ⟨GL_LINEAR, GL_LINEAR_MIPMAP_LINEAR, GL_CLAMP_TO_EDGE, GL_CLAMP_TO_EDGE⟩
  | .linearWrap =>
      ⟨GL_LINEAR, GL_LINEAR_MIPMAP_NEAREST, GL_REPEAT, GL_REPEAT⟩
  | .linearClamp =>
      ⟨GL_LINEAR, GL_LINEAR_MIPMAP_NEAREST, GL_CLAMP_TO_EDGE, GL_CLAMP_TO_EDGE⟩
  | .nearestClamp =>
      ⟨GL_NEAREST, GL_NEAREST_MIPMAP_NEAREST, GL_CLAMP_TO_EDGE,
        GL_CLAMP_TO_EDGE⟩
  | .nearestWrap =>
      ⟨GL_NEAREST, GL_NEAREST_MIPMAP_NEAREST, GL_REPEAT, GL_REPEAT⟩

/-- RemapState::emit_sampler. -/
def emit_sampler (o : Oracles) (sampler : StockSampler) (s : RemapState) :
    Nat × RemapState :=
  let key := o.hashSampler sampler
  match alookup key s.sampler_hash with
  | some i => (i, s)
  | none =>
      let index := s.sampler_cache.length
      (index,
        { s with
          sampler_hash := (key, index) :: s.sampler_hash,
          sampler_cache := s.sampler_cache ++ [sampler_record sampler] })

/-- RemapState::emit_image.  The pending job's target relative path is the
decimal rendering of the fingerprint followed by ".ktx". -/
def emit_image (o : Oracles) (texture : MaterialTexture) (type : TextureRole)
    (compression : TextureCompressionFamily) (quality : Nat)
    (mode : TextureMode) (s : RemapState) : Nat × RemapState :=
  let key := o.hashImage texture.path type compression quality mode
  match alookup key s.image_hash with
  | some i => (i, s)
  | none =>
      let index := s.image_cache.length
      (index,
        { s with
          image_hash := (key, index) :: s.image_hash,
          image_cache := s.image_cache ++
            [{ source_path := texture.path,
               target_relpath := Nat.repr key ++ ".ktx",
               target_mime := "image/ktx", compression := compression,
               compression_quality := quality, mode := mode, type := type,
               swizzle := texture.swizzle }] })

/-- RemapState::emit_texture. -/
def emit_texture (o : Oracles) (texture : MaterialTexture)
    (sampler : StockSampler) (type : TextureRole)
    (compression : TextureCompressionFamily) (quality : Nat)
    (mode : TextureMode) (s : RemapState) : Nat × RemapState :=
  let (image_index, s1) := emit_image o texture type compression quality mode s
  let (sampler_index, s2) := emit_sampler o sampler s1
  let key := o.hashTexture image_index sampler_index
  match alookup key s2.texture_hash with
  | some i => (i, s2)
  | none =>
      let index := s2.texture_cache.length
      (index,
        { s2 with
          texture_hash := (key, index) :: s2.texture_hash,
          texture_cache := s2.texture_cache ++ [⟨image_index, sampler_index⟩] })

/-- One optional environment texture of emit_environment: emitted at the
Emissive role, LinearClamp sampler and HDR mode when the path is non-empty,
-1 otherwise. -/
def env_texture_slot (o : Oracles) (path : String)
    (compression : TextureCompressionFamily) (quality : Nat)
    (s : RemapState) : Int × RemapState :=
  if path ≠ "" then
    let (t, s') := emit_texture o ⟨path, idMapping⟩ .linearClamp .emissive
      compression quality .hdr s
    (Int.ofNat t, s')
  else (-1, s)

/-- RemapState::emit_environment.  All three textures are emitted with the
Emissive role, the LinearClamp stock sampler and TextureMode::HDR. -/
def emit_environment (o : Oracles) (cube reflection irradiance : String)
    (intensity : F) (fog_color : V3) (fog_falloff : F)
    (compression : TextureCompressionFamily) (quality : Nat)
    (s : RemapState) : RemapState :=
  let (cubeIdx, s1) := env_texture_slot o cube compression quality s
  let (reflIdx, s2) := env_texture_slot o reflection compression quality s1
  let (irrIdx, s3) := env_texture_slot o irradiance compression quality s2
  { s3 with
    environment_cache := s3.environment_cache ++
      [{ cube := cubeIdx, reflection := reflIdx, irradiance := irrIdx,
         intensity := intensity, fog_color := fog_color,
         fog_falloff := fog_falloff }] }

/-- One optional texture slot of emit_material: emit the texture when the
path is non-empty and store its index through `set`. -/
def texture_slot (o : Oracles) (tex : MaterialTexture) (samp : StockSampler)
    (role : TextureRole) (comp : TextureCompressionFamily) (q : Nat)
    (mode : TextureMode) (set : EmittedMaterial → Int → EmittedMaterial)
    (es : EmittedMaterial × RemapState) : EmittedMaterial × RemapState :=
  if tex.path ≠ "" then
    let (t, s') := emit_texture o tex samp role comp q mode es.2
    (set es.1 (Int.ofNat t), s')
  else es

/-- RemapState::emit_material: resize the material cache to cover the
canonical index, fill the five texture slots in source order, then copy the
uniform fields and store the entry. -/
def emit_material (o : Oracles) (opts : ExportOptions) (rm : Nat)
    (s : RemapState) : RemapState :=
  let mat := nthD s.materialR.info rm defaultMaterialInfo
  let s0 := { s with
    material_cache :=
      resizeTo (max s.material_cache.length (rm + 1)) defaultEmittedMaterial
        s.material_cache }
  let es := (nthD s0.material_cache rm defaultEmittedMaterial, s0)
  let es := texture_slot o mat.normal mat.sampler .normal opts.compression
    opts.texcomp_quality .rgb (fun e t => { e with normal := t }) es
  let es := texture_slot o mat.occlusion mat.sampler .occlusion
    opts.compression opts.texcomp_quality .rgb
    (fun e t => { e with occlusion := t }) es
  let es := texture_slot o mat.base_color mat.sampler .baseColor
    opts.compression opts.texcomp_quality
    (if mat.pipeline ≠ DrawPipeline.solid then .srgba else .srgb)
    (fun e t => { e with base_color := t }) es
  let es := texture_slot o mat.metallic_roughness mat.sampler
    .metallicRoughness opts.compression opts.texcomp_quality .rgb
    (fun e t => { e with metallic_roughness := t }) es
  let es := texture_slot o mat.emissive mat.sampler .emissive
    opts.compression opts.texcomp_quality .srgb
    (fun e t => { e with emissive := t }) es
  let entry := { es.1 with
    uniform_base_color := mat.uniform_base_color
    uniform_emissive_color := mat.uniform_emissive_color
    uniform_metallic := mat.uniform_metallic
    uniform_roughness := mat.uniform_roughness
    lod_bias := mat.lod_bias
    normal_scale := mat.normal_scale
    pipeline := mat.pipeline
    two_sided := mat.two_sided }
  { es.2 with material_cache := es.2.material_cache.set rm entry }

/-- Write of `accessor_cache[i].aabb = ...; accessor_cache[i].use_aabb = true`
performed for the Position attribute in emit_mesh. -/
def setAccessorAABB (s : RemapState) (i : Nat) (aabb : AABB) : RemapState :=
  { s with
    accessor_cache := s.accessor_cache.set i
      { (nthD s.accessor_cache i defaultEmittedAccessor) with
        aabb := aabb, use_aabb := true } }

/-- Attribute loop of emit_mesh, iterating the semantic slots in enum order;
accumulates the attribute bitmask and the per-slot accessor indices. -/
def emit_attributes (o : Oracles) (mesh : Mesh)
    (position_buffer attribute_buffer : Nat) :
    List MeshAttribute → Nat × List Int → RemapState →
    Except Err ((Nat × List Int) × RemapState)
  | [], acc, s => .ok (acc, s)
  | attr :: rest, (mask, accs), s =>
      let lay := nthD mesh.attribute_layout attr.idx defaultLayout
      if lay.format = VkFormat.undefined then
        emit_attributes o mesh position_buffer attribute_buffer rest
          (mask, accs) s
      else
        let mask' := mask ||| (1 <<< attr.idx)
        if attr = MeshAttribute.position then
          match emit_accessor o position_buffer lay.format lay.offset
              mesh.position_stride (mesh.positions.length / mesh.position_stride)
              s with
          | .ok (ai, s1) =>
              emit_attributes o mesh position_buffer attribute_buffer rest
                (mask', accs.set attr.idx (Int.ofNat ai))
                (setAccessorAABB s1 ai mesh.static_aabb)
          | .error e => .error e
        else
          match emit_accessor o attribute_buffer lay.format lay.offset
              mesh.attribute_stride
              (mesh.attributes.length / mesh.attribute_stride) s with
          | .ok (ai, s1) =>
              emit_attributes o mesh position_buffer attribute_buffer rest
                (mask', accs.set attr.idx (Int.ofNat ai)) s1
          | .error e => .error e

/-- Index-buffer phase of emit_mesh. -/
def emit_mesh_index_phase (o : Oracles) (mesh : Mesh) (s : RemapState) :
    Except Err (Int × RemapState) :=
  if mesh.indices = [] then .ok (-1, s)
  else
    let (vi, s1) := emit_buffer o mesh.indices
      (if mesh.index_type = IndexType.u16 then 2 else 4) s
    match emit_accessor o vi
        (if mesh.index_type = IndexType.u16 then VkFormat.r16Uint
         else VkFormat.r32Uint)
        0 (if mesh.index_type = IndexType.u16 then 2 else 4) mesh.count s1 with
    | .ok (ai, s2) => .ok (Int.ofNat ai, s2)
    | .error e => .error e

/-- Material phase of emit_mesh: emit the canonical material once, guarded by
the material_hash set. -/
def emit_mesh_material_phase (o : Oracles) (opts : ExportOptions)
    (mesh : Mesh) (s : RemapState) : RemapState :=
  if mesh.has_material then
    let rm := nthD s.materialR.to_index mesh.material_index 0
    if rm ∈ s.material_hash then s
    else
      let s' := emit_material o opts rm s
      { s' with material_hash := rm :: s'.material_hash }
  else s

/-- RemapState::emit_mesh. -/
def emit_mesh (o : Oracles) (opts : ExportOptions) (remapped : Nat)
    (s : RemapState) : Except Err RemapState :=
  let mesh := nthD s.meshR.info remapped defaultMesh
  let s := { s with
    mesh_cache := resizeTo (max s.mesh_cache.length (remapped + 1))
      defaultEmittedMesh s.mesh_cache }
  match emit_mesh_index_phase o mesh s with
  | .error e => .error e
  | .ok (iacc, s) =>
      let s := emit_mesh_material_phase o opts mesh s
      let (pb, s) :=
        if mesh.positions ≠ [] then
          emit_buffer o mesh.positions mesh.position_stride s
        else (0, s)
      let (ab, s) :=
        if mesh.attributes ≠ [] then
          emit_buffer o mesh.attributes mesh.attribute_stride s
        else (0, s)
      match emit_attributes o mesh pb ab attrList (0, List.replicate 7 0) s with
      | .error e => .error e
      | .ok ((mask, accs), s) =>
          .ok { s with
            mesh_cache := s.mesh_cache.set remapped
              { index_accessor := iacc,
                material :=
                  if mesh.has_material then Int.ofNat mesh.material_index
                  else -1,
                attribute_mask := mask, attribute_accessor := accs } }

/-- Per-submesh loop of RemapState::emit_meshes; returns the remapped mesh
index list (whose elements are also streamed into the group fingerprint). -/
def emit_submeshes (o : Oracles) (opts : ExportOptions) :
    List Nat → RemapState → Except Err (List Nat × RemapState)
  | [], s => .ok ([], s)
  | m :: rest, s =>
      let rm := nthD s.meshR.to_index m 0
      let step : Except Err RemapState :=
        if rm ∈ s.mesh_hash then .ok s
        else
          match emit_mesh o opts rm s with
          | .ok s' => .ok { s' with mesh_hash := rm :: s'.mesh_hash }
          | .error e => .error e
      match step with
      | .error e => .error e
      | .ok s' =>
          match emit_submeshes o opts rest s' with
          | .error e => .error e
          | .ok (group, s'') => .ok (rm :: group, s'')

/-- RemapState::emit_meshes (mesh-group emission). -/
def emit_meshes (o : Oracles) (opts : ExportOptions) (meshes : List Nat)
    (s : RemapState) : Except Err (Nat × RemapState) :=
  match emit_submeshes o opts meshes s with
  | .error e => .error e
  | .ok (group, s') =>
      let key := o.hashMeshGroup group
      match alookup key s'.mesh_group_hash with
      | some i => .ok (i, s')
      | none =>
          let index := s'.mesh_group_cache.length
          .ok (index,
            { s' with
              mesh_group_cache := s'.mesh_group_cache ++ [group],
              mesh_group_hash := (key, index) :: s'.mesh_group_hash })

/-- An 8-bit RGBA pixel (u8vec4). -/
structure u8vec4 where
  r : Nat
  g : Nat
  b : Nat
  a : Nat
deriving DecidableEq

/-- The parts of a gli::texture the analysis code inspects: format, layer and
face counts, mip level count, and the level-0 pixels in row-major order. -/
structure GliImage where
  format : GliFormat
  layers : Nat
  faces : Nat
  levels : Nat
  pixels : List u8vec4
deriving DecidableEq

/-- In-memory state of an AnalysisResult. -/
structure AnalysisResultM where
  src_path : String
  image : GliImage
  compression : TextureCompression
  mode : TextureMode
  type : TextureRole
  swizzle : VkComponentMapping
deriving DecidableEq

/-- conv_swizzle lambda inside AnalysisResult::swizzle_image: gli supports
only the R/G/B/A selectors; everything else throws. -/
def conv_swizzle : VkComponentSwizzle → Except Err (u8vec4 → Nat)
  | .r => .ok (fun p => p.r)
  | .g => .ok (fun p => p.g)
  | .b => .ok (fun p => p.b)
  | .a => .ok (fun p => p.a)
  | _ => .error "Unrecognized swizzle parameter."

/-- AnalysisResult::swizzle_image: no-op for the identity mapping; otherwise
requires an RGBA8 texture and permutes every pixel. -/
def swizzle_image (m : VkComponentMapping) (res : AnalysisResultM) :
    Except Err AnalysisResultM :=
  if m = idMapping then .ok res
  else if res.image.format ≠ GliFormat.rgba8SrgbPack8 ∧
      res.image.format ≠ GliFormat.rgba8UnormPack8 then
    .error "Can only swizzle RGBA textures."
  else
    match conv_swizzle m.r, conv_swizzle m.g, conv_swizzle m.b,
        conv_swizzle m.a with
    | .ok fr, .ok fg, .ok fb, .ok fa =>
        .ok { res with
          image := { res.image with
            pixels := res.image.pixels.map (fun p => ⟨fr p, fg p, fb p, fa p⟩) } }
    | .error e, _, _, _ => .error e
    | _, .error e, _, _ => .error e
    | _, _, .error e, _ => .error e
    | _, _, _, .error e => .error e

inductive MetallicRoughnessMode where
  | roughnessMetal
  | roughnessDielectric
  | metallicSmooth
  | metallicRough
  | defaultMode
deriving DecidableEq

/-- Single pass over the pixels accumulating
(metallic_zero_only, metallic_one_only, roughness_zero_only,
roughness_one_only), exactly as the loop in
AnalysisResult::deduce_metallic_roughness_mode. -/
def mr_flags (pixels : List u8vec4) : Bool × Bool × Bool × Bool :=
  pixels.foldl
    (fun f p =>
      (f.1 && decide (p.g = 0), f.2.1 && decide (p.g = 255),
       f.2.2.1 && decide (p.b = 0), f.2.2.2 && decide (p.b = 255)))
    (true, true, true, true)

/-- AnalysisResult::deduce_metallic_roughness_mode. -/
def deduce_metallic_roughness_mode (img : GliImage) : MetallicRoughnessMode :=
  if img.layers > 1 ∨ img.faces > 1 then .defaultMode
  else
    let f := mr_flags img.pixels
    let m0 := f.1
    let m1 := f.2.1
    let r0 := f.2.2.1
    let r1 := f.2.2.2
    if !m0 && !m1 && (r1 || r0) then
      if r1 then .metallicRough else .metallicSmooth
    else if !r0 && !r1 && (m1 || m0) then
      if m1 then .roughnessMetal else .roughnessDielectric
    else .defaultMode

/-- AnalysisResult::deduce_compression. -/
def deduce_compression (family : TextureCompressionFamily)
    (res : AnalysisResultM) : Except Err AnalysisResultM :=
  match family with
  | .astc =>
      match res.type with
      | .baseColor | .emissive => .ok { res with compression := .astc6x6 }
      | .occlusion =>
          match swizzle_image ⟨.r, .r, .r, .r⟩ res with
          | .ok res' => .ok { res' with compression := .astc6x6 }
          | .error e => .error e
      | .normal =>
          match swizzle_image ⟨.r, .r, .r, .g⟩ res with
          | .ok res' =>
              .ok { res' with
                    compression := .astc6x6
                    swizzle := ⟨.r, .a, .one, .one⟩ }
          | .error e => .error e
      | .metallicRoughness =>
          let mr := deduce_metallic_roughness_mode res.image
          match mr with
          | .defaultMode =>
              match swizzle_image ⟨.g, .g, .g, .b⟩ res with
              | .ok res' =>
                  .ok { res' with
                        compression := .astc6x6
                        swizzle := ⟨.zero, .r, .a, .zero⟩ }
              | .error e => .error e
          | .metallicRough | .metallicSmooth =>
              match swizzle_image ⟨.b, .b, .b, .b⟩ res with
              | .ok res' =>
                  .ok { res' with
                        compression := .astc6x6
                        swizzle := ⟨.zero,
                          if mr = MetallicRoughnessMode.metallicRough then .one
                          else .zero, .r, .zero⟩ }
              | .error e => .error e
          | .roughnessDielectric | .roughnessMetal =>
              match swizzle_image ⟨.g, .g, .g, .g⟩ res with
              | .ok res' =>
                  .ok { res' with
                        compression := .astc6x6
                        swizzle := ⟨.zero, .r,
                          if mr = MetallicRoughnessMode.roughnessMetal then .one
                          else .zero, .zero⟩ }
              | .error e => .error e
      | .count => .error "Invalid material type."
  | .bc =>
      let afterRole : Except Err AnalysisResultM :=
        match res.type with
        | .baseColor | .emissive => .ok { res with compression := .bc7 }
        | .occlusion => .ok { res with compression := .bc4 }
        | .metallicRoughness =>
            let mr := deduce_metallic_roughness_mode res.image
            match mr with
            | .defaultMode =>
                match swizzle_image ⟨.g, .b, .b, .a⟩ res with
                | .ok res' =>
                    .ok { res' with
                          compression := .bc5
                          swizzle := ⟨.zero, .r, .g, .zero⟩ }
                | .error e => .error e
            | .roughnessDielectric | .roughnessMetal =>
                match swizzle_image ⟨.g, .g, .g, .g⟩ res with
                | .ok res' =>
                    .ok { res' with
                          compression := .bc4
                          swizzle := ⟨.zero, .r,
                            if mr = MetallicRoughnessMode.roughnessMetal then .one
                            else .zero, .zero⟩ }
                | .error e => .error e
            | .metallicRough | .metallicSmooth =>
                match swizzle_image ⟨.b, .b, .b, .b⟩ res with
                | .ok res' =>
                    .ok { res' with
                          compression := .bc4
                          swizzle := ⟨.zero,
                            if mr = MetallicRoughnessMode.metallicRough then .one
                            else .zero, .r, .zero⟩ }
                | .error e => .error e
        | .normal => .ok { res with compression := .bc5 }
        | .count => .error "Invalid material type."
      match afterRole with
      | .ok res' =>
          if res'.mode = TextureMode.hdr then
            .ok { res' with compression := .bc6h }
          else .ok res'
      | .error e => .error e
  | .uncompressed => .ok { res with compression := .uncompressed }

/-- get_compression_format. -/
def get_compression_format (compression : TextureCompression)
    (mode : TextureMode) : GliFormat :=
  let srgb := mode = TextureMode.srgb ∨ mode = TextureMode.srgba
  match compression with
  | .uncompressed =>
      if srgb then .rgba8SrgbPack8 else .rgba8UnormPack8
  | .bc1 =>
      if mode = TextureMode.srgba ∨ mode = TextureMode.rgba then
        if srgb then .rgbaDxt1SrgbBlock8 else .rgbaDxt1UnormBlock8
      else
        if srgb then .rgbDxt1SrgbBlock8 else .rgbDxt1UnormBlock8
  | .bc3 => if srgb then .rgbaDxt5SrgbBlock16 else .rgbaDxt5UnormBlock16
  | .bc4 => .rAti1nUnormBlock8
  | .bc5 => .rgAti2nUnormBlock16
  | .bc7 => if srgb then .rgbaBpSrgbBlock16 else .rgbaBpUnormBlock16
  | .bc6h => .rgbBpUfloatBlock16
  | .astc4x4 =>
      if srgb then .rgbaAstc4x4SrgbBlock16 else .rgbaAstc4x4UnormBlock16
  | .astc5x5 =>
      if srgb then .rgbaAstc5x5SrgbBlock16 else .rgbaAstc5x5UnormBlock16
  | .astc6x6 =>
      if srgb then .rgbaAstc6x6SrgbBlock16 else .rgbaAstc6x6UnormBlock16
  | .astc8x8 =>
      if srgb then .rgbaAstc8x8SrgbBlock16 else .rgbaAstc8x8UnormBlock16

structure CompressorArguments where
  output : String
  format : GliFormat
  quality : Nat
deriving DecidableEq

/-- Observable effect of compress_image: either the up-to-date skip, or the
scheduled work (a mipmap-generation task followed by either the external
block compressor or the raw save).  `mipgen` records whether the mipmap task
will actually generate a chain (levels == 1). -/
inductive CompressAction where
  | skipped
  | encode (mipgen : Bool) (args : CompressorArguments)
  | saveUncompressed (mipgen : Bool) (target : String)
deriving DecidableEq

/-- compress_image, with the filesystem modelled as an mtime oracle
`stat : path → Option mtime` (None = stat failure). -/
def compress_image (stat : String → Option Nat) (target_path : String)
    (res : AnalysisResultM) (quality : Nat) : CompressAction :=
  let skip :=
    match stat res.src_path, stat target_path with
    | some src_m, some dst_m => decide (src_m < dst_m)
    | _, _ => false
  if skip then .skipped
  else
    let mipgen := res.image.levels = 1
    if res.compression ≠ TextureCompression.uncompressed then
      .encode mipgen
        { output := target_path,
          format := get_compression_format res.compression res.mode,
          quality := quality }
    else .saveUncompressed mipgen target_path

/-- GLB chunk padding: `aligned_size = (size + 3) & ~3`. -/
def aligned_size (n : Nat) : Nat := (n + 3) / 4 * 4

/-- Total GLB file size as computed at the write site. -/
def glb_total_size (json_len bin_len : Nat) : Nat :=
  12 + 8 + aligned_size json_len + 8 + aligned_size bin_len

/-- Little-endian uint32 write (memcpy of a uint32_t). -/
def u32le (v : Nat) : List Nat :=
  [v % 256, v / 256 % 256, v / 65536 % 256, v / 16777216 % 256]

/-- Little-endian uint32 read-back used to state the container properties. -/
def decode_u32 (bs : List Nat) : Nat :=
  nthD bs 0 0 + 256 * nthD bs 1 0 + 65536 * nthD bs 2 0 +
    16777216 * nthD bs 3 0

/-- Byte image of the GLB container written by export_scene_to_glb: 12-byte
header, then the JSON chunk padded with 0x20 and the BIN chunk padded
with 0x00. -/
def glb_serialize (json bin : List Nat) : List Nat :=
  [0x67, 0x6C, 0x54, 0x46] ++
  u32le 2 ++
  u32le (glb_total_size json.length bin.length) ++
  u32le (aligned_size json.length) ++
  [0x4A, 0x53, 0x4F, 0x4E] ++
  json ++ List.replicate (aligned_size json.length - json.length) 0x20 ++
  u32le (aligned_size bin.length) ++
  [0x42, 0x49, 0x4E, 0x00] ++
  bin ++ List.replicate (aligned_size bin.length - bin.length) 0x00

/-- swiz_to_index lambda of the images JSON section. -/
def swiz_to_index (s : VkComponentSwizzle) (identity : Nat) : Nat :=
  match s with
  | .r => 0
  | .g => 1
  | .b => 2
  | .a => 3
  | .one => 4
  | .zero => 5
  | .identity => identity

/-- JSON for one buffer view. -/
def viewJson (v : BufferView) : Json :=
  .obj [("buffer", jn 0), ("byteLength", jn v.length),
        ("byteOffset", jn v.offset), ("byteStride", jn v.stride)]

/-- Component count recovered from the accessor type string by the strcmp
chain at the min/max emission site. -/
def typeComponents (t : String) : Nat :=
  if t = "SCALAR" then 1
  else if t = "VEC2" then 2
  else if t = "VEC3" then 3
  else if t = "VEC4" then 4
  else 0

/-- The vec4(lo, 1.0) values whose first `components` entries become the
accessor min array. -/
def aabbMinArr (aabb : AABB) : List Json :=
  [jf aabb.lo.x, jf aabb.lo.y, jf aabb.lo.z, jf 1]

def aabbMaxArr (aabb : AABB) : List Json :=
  [jf aabb.hi.x, jf aabb.hi.y, jf aabb.hi.z, jf 1]

/-- JSON for one accessor. -/
def accessorJson (a : EmittedAccessor) : Json :=
  .obj ([("bufferView", jn a.view), ("componentType", jn a.component),
         ("type", .str a.type), ("count", jn a.count),
         ("byteOffset", jn a.offset)] ++
    (if a.use_aabb then
      let components := typeComponents a.type
      if components ≠ 0 then
        [("min", .arr ((aabbMinArr a.aabb).take components)),
         ("max", .arr ((aabbMaxArr a.aabb).take components))]
      else []
    else []))

/-- JSON for one sampler (members are emitted only when nonzero). -/
def samplerJson (s : EmittedSampler) : Json :=
  .obj ((if s.mag_filter ≠ 0 then [("magFilter", jn s.mag_filter)] else []) ++
    (if s.min_filter ≠ 0 then [("minFilter", jn s.min_filter)] else []) ++
    (if s.wrap_s ≠ 0 then [("wrapS", jn s.wrap_s)] else []) ++
    (if s.wrap_t ≠ 0 then [("wrapT", jn s.wrap_t)] else []))

/-- JSON for one image.  The final swizzle is the one chosen by the analysis
phase on the worker pool (modelled by the `analyze` oracle); extras.swizzle is
emitted only when it is not the RGBA identity. -/
def imageJson (o : Oracles) (img : EmittedImage) : Json :=
  let swiz := o.analyze img
  .obj ([("uri", .str img.target_relpath),
         ("mimeType", .str img.target_mime)] ++
    (if swiz ≠ idMapping then
      [("extras", .obj [("swizzle", .arr
        [jn (swiz_to_index swiz.r 0), jn (swiz_to_index swiz.g 1),
         jn (swiz_to_index swiz.b 2), jn (swiz_to_index swiz.a 3)])])]
    else []))

def textureJson (t : EmittedTexture) : Json :=
  .obj [("sampler", jn t.sampler), ("source", jn t.image)]

/-- JSON for one material, matching the conditional member emission of the
materials block. -/
def materialJson (m : EmittedMaterial) : Json :=
  .obj (
    (if m.pipeline = DrawPipeline.alphaBlend then
      [("alphaMode", .str "BLEND")]
    else if m.pipeline = DrawPipeline.alphaTest then
      [("alphaMode", .str "MASK")]
    else []) ++
    (if m.two_sided then [("doubleSided", .jbool true)] else []) ++
    (if m.uniform_emissive_color ≠ V3.mk 0 0 0 then
      [("emissiveFactor", .arr [jf m.uniform_emissive_color.x,
        jf m.uniform_emissive_color.y, jf m.uniform_emissive_color.z])]
    else []) ++
    [("pbrMetallicRoughness", .obj (
      (if m.uniform_roughness ≠ 1 then
        [("roughnessFactor", jf m.uniform_roughness)] else []) ++
      (if m.uniform_metallic ≠ 1 then
        [("metallicFactor", jf m.uniform_metallic)] else []) ++
      (if m.uniform_base_color ≠ V4.mk 1 1 1 1 then
        [("baseColorFactor", .arr [jf m.uniform_base_color.x,
          jf m.uniform_base_color.y, jf m.uniform_base_color.z,
          jf m.uniform_base_color.w])]
      else []) ++
      (if m.base_color ≥ 0 then
        [("baseColorTexture", .obj [("index", ji m.base_color)])] else []) ++
      (if m.metallic_roughness ≥ 0 then
        [("metallicRoughnessTexture",
          .obj [("index", ji m.metallic_roughness)])]
      else [])))] ++
    (if m.normal ≥ 0 then
      [("normalTexture", .obj [("extras", .obj [("twoComponent", .jbool true)]),
        ("index", ji m.normal), ("scale", jf m.normal_scale)])]
    else []) ++
    (if m.emissive ≥ 0 then
      [("emissiveTexture", .obj [("index", ji m.emissive)])] else []) ++
    (if m.occlusion ≥ 0 then
      [("occlusionTexture", .obj [("index", ji m.occlusion)])] else []))

/-- The materials JSON array: one entry per material_cache element. -/
def materialsJson (cache : List EmittedMaterial) : List Json :=
  cache.map materialJson

/-- Attribute-key table of the primitive semantics mapping. -/
def attrSemantic : MeshAttribute → String
  | .position => "POSITION"
  | .normal => "NORMAL"
  | .boneWeights => "WEIGHTS_0"
  | .boneIndex => "JOINTS_0"
  | .vertexColor => "COLOR_0"
  | .tangent => "TANGENT"
  | .uv => "TEXCOORD_0"

/-- JSON for one primitive (submesh). -/
def primitiveJson (st : RemapState) (submesh : Nat) : Json :=
  let m := nthD st.mesh_cache submesh defaultEmittedMesh
  let attribs := attrList.foldl
    (fun acc attr =>
      if m.attribute_mask &&& (1 <<< attr.idx) ≠ 0 then
        acc ++ [(attrSemantic attr, ji (nthD m.attribute_accessor attr.idx 0))]
      else acc) []
  .obj (
    (if m.index_accessor ≥ 0 then [("indices", ji m.index_accessor)] else []) ++
    (if m.material ≥ 0 then
      [("material", jn (nthD st.materialR.to_index m.material.toNat 0))]
    else []) ++
    [("attributes", .obj attribs)])

/-- JSON for one mesh group. -/
def meshGroupJson (st : RemapState) (group : List Nat) : Json :=
  .obj [("primitives", .arr (group.map (primitiveJson st)))]

def cameraJson (c : CameraInfo) : Json :=
  match c.type with
  | .perspective =>
      .obj [("type", .str "perspective"),
        ("perspective", .obj [("aspectRatio", jf c.aspect_ratio),
          ("yfov", jf c.yfov), ("znear", jf c.znear), ("zfar", jf c.zfar)])]
  | .orthographic =>
      .obj [("type", .str "orthographic"),
        ("orthographic", .obj [("xmag", jf c.xmag), ("ymag", jf c.ymag),
          ("znear", jf c.znear), ("zfar", jf c.zfar)])]

/-- Attenuation members emitted only when the falloff is nonzero. -/
def lightAttenuation (l : LightInfo) : List (String × Json) :=
  (if l.constant_falloff ≠ 0 then
    [("constantAttenuation", jf l.constant_falloff)] else []) ++
  (if l.linear_falloff ≠ 0 then
    [("linearAttenuation", jf l.linear_falloff)] else []) ++
  (if l.quadratic_falloff ≠ 0 then
    [("quadraticAttenuation", jf l.quadratic_falloff)] else [])

def lightJson (o : Oracles) (l : LightInfo) : Json :=
  .obj ([("color", .arr [jf l.color.x, jf l.color.y, jf l.color.z])] ++
    match l.type with
    | .spot =>
        [("type", .str "spot"), ("profile", .str "CMN"),
         ("positional", .obj (lightAttenuation l ++
           [("spot", .obj [
             ("innerAngle", jf (o.sqrtF (max (1 - l.inner_cone * l.inner_cone) 0))),
             ("outerAngle", jf (o.sqrtF (max (1 - l.outer_cone * l.outer_cone) 0)))])]))]
    | .point =>
        [("type", .str "point"), ("profile", .str "CMN"),
         ("positional", .obj (lightAttenuation l))]
    | .directional => [("type", .str "directional"), ("profile", .str "CMN")]
    | .ambient => [("type", .str "ambient")])

def envJson (env : EmittedEnvironment) : Json :=
  .obj (
    (if env.cube ≥ 0 then [("cubeTexture", ji env.cube)] else []) ++
    (if env.reflection ≥ 0 then [("reflectionTexture", ji env.reflection)]
     else []) ++
    (if env.irradiance ≥ 0 then [("irradianceTexture", ji env.irradiance)]
     else []) ++
    [("intensity", jf env.intensity),
     ("fog", .obj [("color", .arr [jf env.fog_color.x, jf env.fog_color.y,
       jf env.fog_color.z]), ("falloff", jf env.fog_falloff)])])

/-- Node walk: builds the per-node JSON objects and drives emit_meshes.
`idx` is the running node index used by the camera/light linear scans. -/
def walk_nodes (o : Oracles) (opts : ExportOptions)
    (scene : SceneInformation) :
    Nat → List Node → RemapState → Except Err (List Json × RemapState)
  | _, [], s => .ok ([], s)
  | idx, node :: rest, s =>
      let members0 : List (String × Json) :=
        if node.children ≠ [] then
          [("children", .arr (node.children.map jn))]
        else []
      let withMesh : Except Err (List (String × Json) × RemapState) :=
        if node.meshes ≠ [] then
          match emit_meshes o opts node.meshes s with
          | .ok (gi, s') => .ok (members0 ++ [("mesh", jn gi)], s')
          | .error e => .error e
        else .ok (members0, s)
      match withMesh with
      | .error e => .error e
      | .ok (members1, s) =>
          let members2 := members1 ++
            (match scene.cameras.findIdx?
                (fun c => c.attached_to_node && c.node_index == idx) with
             | some ci => [("camera", jn ci)]
             | none => [])
          let members3 := members2 ++
            (match scene.lights.findIdx?
                (fun l => l.attached_to_node && l.node_index == idx) with
             | some li =>
                 [("extensions", .obj [("KHR_lights_cmn",
                   .obj [("light", jn li)])])]
             | none => [])
          let members4 := members3 ++
            (if node.transform.rotation.w ≠ 1 ∨ node.transform.rotation.x ≠ 0 ∨
                node.transform.rotation.y ≠ 0 ∨
                node.transform.rotation.z ≠ 0 then
              [("rotation", .arr [jf node.transform.rotation.x,
                jf node.transform.rotation.y, jf node.transform.rotation.z,
                jf node.transform.rotation.w])]
            else [])
          let members5 := members4 ++
            (if node.transform.scale ≠ V3.mk 1 1 1 then
              [("scale", .arr [jf node.transform.scale.x,
                jf node.transform.scale.y, jf node.transform.scale.z])]
            else [])
          let members6 := members5 ++
            (if node.transform.translation ≠ V3.mk 0 0 0 then
              [("translation", .arr [jf node.transform.translation.x,
                jf node.transform.translation.y,
                jf node.transform.translation.z])]
            else [])
          match walk_nodes o opts scene (idx + 1) rest s with
          | .error e => .error e
          | .ok (restJson, s') => .ok (Json.obj members6 :: restJson, s')

/-- Top-level JSON document members, in emission order. -/
def buildDoc (o : Oracles) (scene : SceneInformation) (st : RemapState)
    (nodesJson : List Json) : List (String × Json) :=
  [("asset", Json.obj [("generator", .str "Granite glTF 2.0 exporter"),
    ("version", .str "2.0")])] ++
  (if scene.lights ≠ [] then
    [("extensionsRequired", Json.arr [.str "KHR_lights_cmn"]),
     ("extensionsUsed", Json.arr [.str "KHR_lights_cmn"])]
  else []) ++
  [("nodes", Json.arr nodesJson),
   ("buffers", Json.arr [.obj [("byteLength", jn st.glb_buffer_data.length)]]),
   ("bufferViews", Json.arr (st.buffer_views.map viewJson)),
   ("accessors", Json.arr (st.accessor_cache.map accessorJson)),
   ("samplers", Json.arr (st.sampler_cache.map samplerJson)),
   ("images", Json.arr (st.image_cache.map (imageJson o))),
   ("textures", Json.arr (st.texture_cache.map textureJson)),
   ("materials", Json.arr (materialsJson st.material_cache)),
   ("meshes", Json.arr (st.mesh_group_cache.map (meshGroupJson st))),
   ("cameras", Json.arr (scene.cameras.map cameraJson))] ++
  (if scene.lights ≠ [] then
    [("extensions", Json.obj [("KHR_lights_cmn",
      Json.obj [("lights", Json.arr (scene.lights.map (lightJson o)))])])]
  else []) ++
  (if st.environment_cache ≠ [] then
    [("extras", Json.obj [("environments",
      Json.arr (st.environment_cache.map envJson))])]
  else [])

/-- Canonical material remap of one export call (the material filter pass). -/
def export_mat_remap (o : Oracles) (scene : SceneInformation) :
    Remap MaterialInfo :=
  filter_input o.hashMaterial scene.materials

/-- Canonical mesh remap of one export call; the mesh fingerprint folds in
the canonical material index when the mesh has a material. -/
def export_mesh_remap (o : Oracles) (scene : SceneInformation) : Remap Mesh :=
  filter_input
    (fun mesh => o.hashMesh mesh
      (if mesh.has_material then
        some (nthD (export_mat_remap o scene).to_index mesh.material_index 0)
      else none))
    scene.meshes

/-- Fresh export state with just the remap tables installed. -/
def export_init_state (o : Oracles) (scene : SceneInformation) : RemapState :=
  { initialRemapState with
    materialR := export_mat_remap o scene,
    meshR := export_mesh_remap o scene }

/-- State immediately before the node walk: remap tables installed, then the
environment emitted iff the cube path is non-empty. -/
def export_base_state (o : Oracles) (scene : SceneInformation)
    (options : ExportOptions) : RemapState :=
  if options.environment.cube ≠ "" then
    emit_environment o options.environment.cube
      options.environment.reflection options.environment.irradiance
      options.environment.intensity options.environment.fog_color
      options.environment.fog_falloff options.environment.compression
      options.environment.texcomp_quality (export_init_state o scene)
  else export_init_state o scene

/-- State construction of one export call: filter materials, then meshes
(whose fingerprint uses the canonical material index), optionally emit the
environment, then walk the nodes. -/
def run_export_state (o : Oracles) (scene : SceneInformation)
    (options : ExportOptions) : Except Err (List Json × RemapState) :=
  walk_nodes o options scene 0 scene.nodes
    (export_base_state o scene options)

structure ExportOutput where
  doc : List (String × Json)
  glb : List Nat

/-- export_scene_to_glb.  `.error e` models an uncaught C++ exception
propagating out of the function, `.ok none` models `return false` (which the
source reaches only on output open/map failure), `.ok (some out)` models
`return true` after writing the container.  The encode dispatch
(compress_image per image) runs on the worker pool and writes only sibling
KTX files, not the GLB; it is modelled separately by `compress_image`. -/
def export_scene_to_glb (o : Oracles) (scene : SceneInformation)
    (_path : String) (options : ExportOptions) :
    Except Err (Option ExportOutput) :=
  match run_export_state o scene options with
  | .error e => .error e
  | .ok (nodesJson, st) =>
      let doc := buildDoc o scene st nodesJson
      let json := o.serializeJson (Json.obj doc)
      let glb := glb_serialize json st.glb_buffer_data
      if o.canOpen = false then .ok none
      else if o.canMap = false then .ok none
      else .ok (some { doc := doc, glb := glb })

/-- Final RemapState of an export, as a decidable projection. -/
def exportStateOpt (o : Oracles) (scene : SceneInformation)
    (options : ExportOptions) : Option RemapState :=
  match run_export_state o scene options with
  | .ok (_, st) => some st
  | .error _ => none

/-- Error message of an export, as a decidable projection. -/
def exportErr (r : Except Err (Option ExportOutput)) : Option Err :=
  match r with
  | .error e => some e
  | .ok _ => none

/-- Whether an export took a `return false` path. -/
def returnedFalse (r : Except Err (Option ExportOutput)) : Bool :=
  match r with
  | .ok none => true
  | _ => false

/-- Member lookup in a JSON object member list. -/
def memberLookup (k : String) : List (String × Json) → Option Json
  | [] => none
  | (k', v) :: rest => if k' = k then some v else memberLookup k rest

/-- Canonical material index referenced by canonical mesh `i`, when its
representative has a material. -/
def meshRefOf (meshR : Remap Mesh) (matR : Remap MaterialInfo) (i : Nat) :
    Option Nat :=
  let rep := nthD meshR.info i defaultMesh
  if rep.has_material then
    some (nthD matR.to_index rep.material_index 0)
  else none

/-- Canonical material indices referenced by one node's mesh list. -/
def nodeRefs (meshR : Remap Mesh) (matR : Remap MaterialInfo)
    (meshes : List Nat) : List Nat :=
  meshes.filterMap (fun m => meshRefOf meshR matR (nthD meshR.to_index m 0))

/-- Canonical material indices referenced by the walked meshes, in walk
order: for every mesh list entry of every node, the canonical material index
of the canonical representative mesh, when it has a material. -/
def walkedRefs (scene : SceneInformation) (meshR : Remap Mesh)
    (matR : Remap MaterialInfo) : List Nat :=
  scene.nodes.flatMap (fun n => nodeRefs meshR matR n.meshes)

/-- One plus the largest element of a list, zero for the empty list. -/
def maxPlus : List Nat → Nat
  | [] => 0
  | x :: xs => max (x + 1) (maxPlus xs)

/-- JSON of a never-emitted (value-initialized) material slot. -/
def defaultMaterialJson : Json :=
  Json.obj [("pbrMetallicRoughness", Json.obj [])]

/-- The sampler record of Vulkan::StockSampler::LinearClamp. -/
def linearClampSampler : EmittedSampler :=
  ⟨GL_LINEAR, GL_LINEAR_MIPMAP_NEAREST, GL_CLAMP_TO_EDGE, GL_CLAMP_TO_EDGE⟩

/-! Reference, oracle, frame and witness definitions used by the
verification below. -/

/-! Claim C4.  The code skips the encode only when the source mtime is
STRICTLY below the target mtime (`src_stat.last_modified <
dst_stat.last_modified`); at equal mtimes it re-encodes, contradicting the
claim's "greater than or equal". -/

/-- Concrete analysis result for the C4 counterexample. -/
def c4res : AnalysisResultM :=
  { src_path := "albedo.png",
    image := { format := .rgba8SrgbPack8, layers := 1, faces := 1,
               levels := 1, pixels := [] },
    compression := .bc7, mode := .srgb, type := .baseColor,
    swizzle := idMapping }

/-! Claim C6: the metallic-roughness pixel scan. -/

/-- The metallic-roughness mode exactly as the claim words it (reference
definition used to state the refinement): the four booleans are all-pixel
predicates on the G and B channels, the gate on layers/faces comes first,
and the four cases are tried in the claim's order. -/
def claimed_mr_mode (img : GliImage) : MetallicRoughnessMode :=
  if img.layers > 1 ∨ img.faces > 1 then .defaultMode
  else
    let g0 := img.pixels.all (fun p => decide (p.g = 0))
    let g255 := img.pixels.all (fun p => decide (p.g = 255))
    let b0 := img.pixels.all (fun p => decide (p.b = 0))
    let b255 := img.pixels.all (fun p => decide (p.b = 255))
    if (!g0 && !g255) && b255 then .metallicRough
    else if (!g0 && !g255) && b0 then .metallicSmooth
    else if (!b0 && !b255) && g255 then .roughnessMetal
    else if (!b0 && !b255) && g0 then .roughnessDielectric
    else .defaultMode

/-! Claim C2: the buffer-view invariant. -/

/-- Fold of an arbitrary sequence of emit_buffer requests from the empty
per-export state. -/
def run_emit_buffers (o : Oracles) (reqs : List (List Nat × Nat)) :
    RemapState :=
  reqs.foldl (fun s r => (emit_buffer o r.1 r.2 s).2) initialRemapState

/-! Claim C1: the GLB container layout. -/

/-- GLB container written by an export, as a decidable projection (none when
the export failed or returned false). -/
def glbOf (o : Oracles) (scene : SceneInformation) (path : String)
    (options : ExportOptions) : Option (List Nat) :=
  match export_scene_to_glb o scene path options with
  | .ok (some out) => some out.glb
  | _ => none

/-- The GLB bytes predicted from the export state: the serialized JSON
document framed with the binary blob. -/
def glbExpected (o : Oracles) (scene : SceneInformation)
    (options : ExportOptions) : Option (List Nat) :=
  match run_export_state o scene options with
  | .ok (nodesJson, st) =>
      some (glb_serialize
        (o.serializeJson (Json.obj (buildDoc o scene st nodesJson)))
        st.glb_buffer_data)
  | .error _ => none

/-- Concrete oracle choice used by the witnesses (hash functions constant,
analysis identity, JSON serializer empty, I/O available). -/
def oracleZ : Oracles :=
  { hashMesh := fun _ _ => 0, hashMaterial := fun _ => 0,
    hashBuffer := fun _ _ => 0, hashAccessor := fun _ _ _ _ _ => 0,
    hashSampler := fun _ => 0, hashImage := fun _ _ _ _ _ => 0,
    hashTexture := fun _ _ => 0, hashMeshGroup := fun _ => 0,
    analyze := fun _ => idMapping, serializeJson := fun _ => [],
    sqrtF := fun _ => 0, canOpen := true, canMap := true }

/-- Concrete texture reference for the C7 witness. -/
def texW : MaterialTexture := ⟨"albedo.png", idMapping⟩

/-! Frame relations: which RemapState fields the emit functions leave
untouched.  `WalkFrame` holds across the whole node walk, `EmitFrame`
additionally fixes mesh_hash (changed only by emit_submeshes), and
`MatFrame` additionally fixes the material cache fields (changed only by
emit_material). -/

def WalkFrame (s s' : RemapState) : Prop :=
  s'.meshR = s.meshR ∧ s'.materialR = s.materialR ∧
  s'.environment_cache = s.environment_cache

def EmitFrame (s s' : RemapState) : Prop :=
  WalkFrame s s' ∧ s'.mesh_hash = s.mesh_hash

def MatFrame (s s' : RemapState) : Prop :=
  EmitFrame s s' ∧ s'.material_cache = s.material_cache ∧
  s'.material_hash = s.material_hash

/-! Walk-level invariant tying the material cache fields to the canonical
material references processed so far. -/

def MatInv (M : Remap Mesh) (MA : Remap MaterialInfo) (s : RemapState)
    (refs : List Nat) : Prop :=
  s.meshR = M ∧ s.materialR = MA ∧
  (∀ r, r ∈ s.material_hash ↔ r ∈ refs) ∧
  s.material_cache.length = maxPlus s.material_hash ∧
  (∀ i ∈ s.mesh_hash, ∀ r, meshRefOf M MA i = some r →
    r ∈ s.material_hash) ∧
  (∀ j, j < s.material_cache.length → j ∉ s.material_hash →
    nthD s.material_cache j defaultEmittedMaterial = defaultEmittedMaterial)

/-- Concrete one-node scene driving the C9 witness: a single positioned mesh
referencing the single material. -/
def sceneW9 : SceneInformation :=
  { materials := [defaultMaterialInfo],
    meshes := [{ defaultMesh with
                 position_stride := 12,
                 attribute_layout := [⟨.r32g32b32Sfloat, 0⟩],
                 positions := List.replicate 12 0,
                 count := 1,
                 has_material := true }],
    nodes := [{ children := [], meshes := [0],
                transform := ⟨⟨0, 0, 0, 1⟩, ⟨1, 1, 1⟩, ⟨0, 0, 0⟩⟩ }],
    cameras := [], lights := [] }

/-- Export options with no environment. -/
def optsW9 : ExportOptions :=
  { threads := 1, compression := .bc, texcomp_quality := 4,
    environment := { cube := "", reflection := "", irradiance := "",
                     intensity := 1, fog_color := ⟨0, 0, 0⟩, fog_falloff := 1,
                     compression := .bc, texcomp_quality := 4 } }

/-- The state reached by the C9 witness export. -/
def stW9 : RemapState :=
  match run_export_state oracleZ sceneW9 optsW9 with
  | .ok (_, st) => st
  | .error _ => initialRemapState

/-- Empty scene driving the C10 witness. -/
def sceneW10 : SceneInformation :=
  { materials := [], meshes := [], nodes := [], cameras := [], lights := [] }

/-- Export options of the C10 witness: cube set, reflection and irradiance
empty. -/
def optsW10 : ExportOptions :=
  { threads := 1, compression := .bc, texcomp_quality := 4,
    environment := { cube := "env.ktx", reflection := "", irradiance := "",
                     intensity := 1, fog_color := ⟨0, 0, 0⟩, fog_falloff := 1,
                     compression := .bc, texcomp_quality := 4 } }

/-- The state reached by the C10 witness export. -/
def stW10 : RemapState :=
  match run_export_state oracleZ sceneW10 optsW10 with
  | .ok (_, st) => st
  | .error _ => initialRemapState

/-- Scene whose only mesh uses a position format outside the accessor format
table. -/
def sceneBad5 : SceneInformation :=
  { materials := [],
    meshes := [{ defaultMesh with
                 position_stride := 4,
                 attribute_layout := [⟨.r8g8b8a8Srgb, 0⟩],
                 positions := List.replicate 4 0,
                 count := 1 }],
    nodes := [{ children := [], meshes := [0],
                transform := ⟨⟨0, 0, 0, 1⟩, ⟨1, 1, 1⟩, ⟨0, 0, 0⟩⟩ }],
    cameras := [], lights := [] }

/-- Oracle whose output file cannot be opened. -/
def oracleNoOpen : Oracles := { oracleZ with canOpen := false }

/-- Member list of a JSON object (empty for non-objects). -/
def objMembers : Json → List (String × Json)
  | .obj ms => ms
  | _ => []

/-- First AABB of the C8 witness. -/
def aabb1W8 : AABB := ⟨⟨0, 0, 0⟩, ⟨1, 1, 1⟩⟩

/-- Second (surviving) AABB of the C8 witness. -/
def aabb2W8 : AABB := ⟨⟨0, 0, 0⟩, ⟨2, 2, 2⟩⟩

/-- State after the first accessor emission of the C8 witness. -/
def s1W8 : RemapState :=
  match emit_accessor oracleZ 0 .r32g32b32Sfloat 0 12 1 initialRemapState with
  | .ok (_, st) => st
  | .error _ => initialRemapState

/-! Shared arithmetic and list lemmas. -/

lemma le_aligned_size (n : Nat) : n ≤ aligned_size n := by
  unfold aligned_size; omega

lemma aligned_size_mod (n : Nat) : aligned_size n % 4 = 0 := by
  unfold aligned_size; omega

lemma le_align16 (n : Nat) : n ≤ align16 n := by
  unfold align16; omega

lemma align16_mod (n : Nat) : align16 n % 16 = 0 := by
  unfold align16; omega

lemma decode_u32le (v : Nat) : decode_u32 (u32le v) = v % 4294967296 := by
  show v % 256 + 256 * (v / 256 % 256) + 65536 * (v / 65536 % 256) +
    16777216 * (v / 16777216 % 256) = v % 4294967296
  omega

/-! Claim C3.  The source maps 8-bit SNORM/SINT formats to GL_UNSIGNED_BYTE:
the `return GL_BYTE;` right after `return GL_UNSIGNED_BYTE;` is unreachable,
so the accessor component emitted for these formats is 0x1401, not the 0x1400
required by the spec (which documents the unreachable return as the intent). -/

/-- C3: evaluating the component mapping of the code at every 8-bit SNORM and
SINT format yields GL_UNSIGNED_BYTE (0x1401), which differs from the claimed
GL_BYTE (0x1400). -/
theorem c3_snorm_sint_component_code_bug :
    get_accessor_component .r8Snorm = .ok GL_UNSIGNED_BYTE ∧
    get_accessor_component .r8g8Snorm = .ok GL_UNSIGNED_BYTE ∧
    get_accessor_component .r8g8b8Snorm = .ok GL_UNSIGNED_BYTE ∧
    get_accessor_component .r8g8b8a8Snorm = .ok GL_UNSIGNED_BYTE ∧
    get_accessor_component .r8Sint = .ok GL_UNSIGNED_BYTE ∧
    get_accessor_component .r8g8Sint = .ok GL_UNSIGNED_BYTE ∧
    get_accessor_component .r8g8b8Sint = .ok GL_UNSIGNED_BYTE ∧
    get_accessor_component .r8g8b8a8Sint = .ok GL_UNSIGNED_BYTE ∧
    GL_UNSIGNED_BYTE ≠ GL_BYTE :=
  ⟨rfl, rfl, rfl, rfl, rfl, rfl, rfl, rfl, by decide⟩

/-- C4 counterexample: with both files stat-able and target mtime equal to
source mtime (hence ≥), compress_image does not skip; it schedules the
mipmap-generation and encode work. -/
theorem c4_counterexample :
    (7 : Nat) ≥ 7 ∧
    compress_image (fun _ => some 7) "albedo.ktx" c4res 5 =
      CompressAction.encode true
        { output := "albedo.ktx", format := .rgbaBpSrgbBlock16,
          quality := 5 } ∧
    compress_image (fun _ => some 7) "albedo.ktx" c4res 5 ≠
      CompressAction.skipped := by
  refine ⟨by decide, by decide, by decide⟩

/-- C4 amended: the encode phase is skipped exactly when both the source and
the target can be stat'ed and the target's mtime is STRICTLY greater than
the source's mtime. -/
theorem c4_amended_skip_iff_strictly_newer
    (stat : String → Option Nat) (target : String) (res : AnalysisResultM)
    (quality : Nat) :
    compress_image stat target res quality = CompressAction.skipped ↔
      ∃ s d, stat res.src_path = some s ∧ stat target = some d ∧ s < d := by
  unfold compress_image
  cases hs : stat res.src_path <;> cases ht : stat target <;>
    simp [hs, ht] <;> split <;> simp_all

lemma mr_flags_aux (ps : List u8vec4) (i : Bool × Bool × Bool × Bool) :
    ps.foldl
      (fun f p =>
        (f.1 && decide (p.g = 0), f.2.1 && decide (p.g = 255),
         f.2.2.1 && decide (p.b = 0), f.2.2.2 && decide (p.b = 255))) i =
      (i.1 && ps.all (fun p => decide (p.g = 0)),
       i.2.1 && ps.all (fun p => decide (p.g = 255)),
       i.2.2.1 && ps.all (fun p => decide (p.b = 0)),
       i.2.2.2 && ps.all (fun p => decide (p.b = 255))) := by
  induction ps generalizing i with
  | nil => simp
  | cons p ps ih =>
      simp only [List.foldl_cons, List.all_cons, ih, Bool.and_assoc]

lemma mr_flags_eq (ps : List u8vec4) :
    mr_flags ps =
      (ps.all (fun p => decide (p.g = 0)),
       ps.all (fun p => decide (p.g = 255)),
       ps.all (fun p => decide (p.b = 0)),
       ps.all (fun p => decide (p.b = 255))) := by
  unfold mr_flags
  rw [mr_flags_aux]
  simp

/-- C6: the metallic-roughness planner agrees everywhere with the claim's
description: one scan recording the four channel booleans, the four
role-splitting cases in the claim's order, Default otherwise, and images with
more than one layer or face are Default without scanning. -/
theorem c6_metallic_roughness_mode_spec (img : GliImage) :
    deduce_metallic_roughness_mode img = claimed_mr_mode img := by
  unfold deduce_metallic_roughness_mode claimed_mr_mode
  by_cases h : img.layers > 1 ∨ img.faces > 1
  · simp [h]
  · simp only [h, if_false]
    rw [mr_flags_eq]
    generalize img.pixels.all (fun p => decide (p.g = 0)) = g0
    generalize img.pixels.all (fun p => decide (p.g = 255)) = g255
    generalize img.pixels.all (fun p => decide (p.b = 0)) = b0
    generalize img.pixels.all (fun p => decide (p.b = 255)) = b255
    revert g0 g255 b0 b255
    decide

/-! Claim C7: emit_image is idempotent per (path, role, family, quality,
mode) key. -/

/-- C7: a second emit_image call with the same key returns the same index and
leaves the state unchanged; a miss records exactly one pending image job with
target "<hash>.ktx" and MIME "image/ktx", a hit records nothing. -/
theorem c7_emit_image_idempotent (o : Oracles) (s : RemapState)
    (tex tex' : MaterialTexture) (ty : TextureRole)
    (comp : TextureCompressionFamily) (q : Nat) (mode : TextureMode)
    (hpath : tex'.path = tex.path) :
    (emit_image o tex' ty comp q mode
        (emit_image o tex ty comp q mode s).2).1 =
      (emit_image o tex ty comp q mode s).1 ∧
    (emit_image o tex' ty comp q mode
        (emit_image o tex ty comp q mode s).2).2 =
      (emit_image o tex ty comp q mode s).2 ∧
    (alookup (o.hashImage tex.path ty comp q mode) s.image_hash = none →
      (emit_image o tex ty comp q mode s).2.image_cache =
        s.image_cache ++
          [{ source_path := tex.path,
             target_relpath :=
               Nat.repr (o.hashImage tex.path ty comp q mode) ++ ".ktx",
             target_mime := "image/ktx", compression := comp,
             compression_quality := q, mode := mode, type := ty,
             swizzle := tex.swizzle }]) ∧
    (∀ i, alookup (o.hashImage tex.path ty comp q mode) s.image_hash = some i →
      (emit_image o tex ty comp q mode s).2 = s) := by
  unfold emit_image
  rw [hpath]
  cases h : alookup (o.hashImage tex.path ty comp q mode) s.image_hash with
  | some i => simp [h]
  | none => simp [h, alookup]

lemma emit_buffer_inv (o : Oracles) (bytes : List Nat) (stride : Nat)
    (s : RemapState)
    (h : ∀ v ∈ s.buffer_views,
      v.offset % 16 = 0 ∧ v.offset + v.length ≤ s.glb_buffer_data.length) :
    ∀ v ∈ (emit_buffer o bytes stride s).2.buffer_views,
      v.offset % 16 = 0 ∧
      v.offset + v.length ≤
        (emit_buffer o bytes stride s).2.glb_buffer_data.length := by
  unfold emit_buffer
  cases hl : alookup (o.hashBuffer bytes stride) s.buffer_hash with
  | some i => simpa [hl] using h
  | none =>
      simp only [hl]
      intro v hv
      simp only [List.mem_append, List.mem_singleton] at hv
      have hblob : (s.glb_buffer_data ++
          List.replicate (align16 s.glb_buffer_data.length -
            s.glb_buffer_data.length) 0 ++ bytes).length =
          align16 s.glb_buffer_data.length + bytes.length := by
        have := le_align16 s.glb_buffer_data.length
        simp [List.length_append]
        omega
      rcases hv with hv | hv
      · have := h v hv
        have hle := le_align16 s.glb_buffer_data.length
        constructor
        · exact this.1
        · simp only [hblob]
          omega
      · subst hv
        constructor
        · exact align16_mod _
        · simp only [hblob]
          exact Nat.le_refl _

/-- C2: after any sequence of emit_buffer calls starting from the empty
state, every recorded buffer view starts at a 16-byte aligned offset and lies
entirely within the final binary blob. -/
theorem c2_buffer_views_aligned_and_in_bounds (o : Oracles)
    (reqs : List (List Nat × Nat)) :
    ∀ v ∈ (run_emit_buffers o reqs).buffer_views,
      v.offset % 16 = 0 ∧
      v.offset + v.length ≤
        (run_emit_buffers o reqs).glb_buffer_data.length := by
  unfold run_emit_buffers
  suffices h : ∀ (s : RemapState),
      (∀ v ∈ s.buffer_views,
        v.offset % 16 = 0 ∧ v.offset + v.length ≤ s.glb_buffer_data.length) →
      ∀ v ∈ (reqs.foldl (fun s r => (emit_buffer o r.1 r.2 s).2) s).buffer_views,
        v.offset % 16 = 0 ∧
        v.offset + v.length ≤
          (reqs.foldl (fun s r => (emit_buffer o r.1 r.2 s).2) s).glb_buffer_data.length by
    exact h initialRemapState (by simp [initialRemapState])
  induction reqs with
  | nil => intro s hs; simpa using hs
  | cons r rest ih =>
      intro s hs
      simp only [List.foldl_cons]
      exact ih _ (emit_buffer_inv o r.1 r.2 s hs)

lemma take_four_cons (a b c d : Nat) (rest : List Nat) :
    (a :: b :: c :: d :: rest).take 4 = [a, b, c, d] := rfl

/-- C1: every successful export writes `glb_serialize json bin` for the
serialized document and the blob, and that byte string is a 12-byte header
(magic "glTF", version 2, total length 12 + (8 + align4 json) +
(8 + align4 bin)) followed by the JSON chunk padded with 0x20 and the BIN
chunk padded with 0x00, both padded to multiples of 4. -/
theorem c1_glb_container_layout :
    (∀ (o : Oracles) (scene : SceneInformation) (path : String)
        (options : ExportOptions),
      glbOf o scene path options ≠ none →
      glbOf o scene path options = glbExpected o scene options) ∧
    (∀ json bin : List Nat,
      glb_total_size json.length bin.length < 4294967296 →
      (glb_serialize json bin).length = glb_total_size json.length bin.length ∧
      (glb_serialize json bin).take 4 = [0x67, 0x6C, 0x54, 0x46] ∧
      decode_u32 (((glb_serialize json bin).drop 4).take 4) = 2 ∧
      decode_u32 (((glb_serialize json bin).drop 8).take 4) =
        12 + (8 + aligned_size json.length) + (8 + aligned_size bin.length) ∧
      decode_u32 (((glb_serialize json bin).drop 12).take 4) =
        aligned_size json.length ∧
      ((glb_serialize json bin).drop 16).take 4 = [0x4A, 0x53, 0x4F, 0x4E] ∧
      ((glb_serialize json bin).drop 20).take (aligned_size json.length) =
        json ++ List.replicate (aligned_size json.length - json.length) 0x20 ∧
      aligned_size json.length % 4 = 0 ∧
      decode_u32 (((glb_serialize json bin).drop
          (20 + aligned_size json.length)).take 4) =
        aligned_size bin.length ∧
      ((glb_serialize json bin).drop
          (24 + aligned_size json.length)).take 4 = [0x42, 0x49, 0x4E, 0x00] ∧
      (glb_serialize json bin).drop (28 + aligned_size json.length) =
        bin ++ List.replicate (aligned_size bin.length - bin.length) 0x00 ∧
      aligned_size bin.length % 4 = 0) := by
  constructor
  · intro o scene path options h
    unfold glbOf glbExpected export_scene_to_glb at *
    cases hrun : run_export_state o scene options with
    | error e => simp [hrun] at h
    | ok pr =>
        simp only [hrun] at h ⊢
        by_cases hco : o.canOpen = false
        · simp [hco] at h
        · by_cases hcm : o.canMap = false
          · simp [hco, hcm] at h
          · simp [hco, hcm]
  · intro json bin hsize
    have hj := le_aligned_size json.length
    have hb := le_aligned_size bin.length
    have hlen : (glb_serialize json bin).length =
        glb_total_size json.length bin.length := by
      simp [glb_serialize, u32le, glb_total_size, List.length_append,
        List.length_replicate]
      omega
    have hdecomp : glb_serialize json bin =
        [0x67, 0x6C, 0x54, 0x46] ++ u32le 2 ++
          u32le (glb_total_size json.length bin.length) ++
          u32le (aligned_size json.length) ++ [0x4A, 0x53, 0x4F, 0x4E] ++
          ((json ++
            List.replicate (aligned_size json.length - json.length) 0x20) ++
           (u32le (aligned_size bin.length) ++ ([0x42, 0x49, 0x4E, 0x00] ++
            (bin ++
             List.replicate (aligned_size bin.length - bin.length) 0x00)))) := by
      simp [glb_serialize, List.append_assoc]
    have h20 : (glb_serialize json bin).drop 20 =
        (json ++
          List.replicate (aligned_size json.length - json.length) 0x20) ++
        (u32le (aligned_size bin.length) ++ ([0x42, 0x49, 0x4E, 0x00] ++
          (bin ++
           List.replicate (aligned_size bin.length - bin.length) 0x00))) := by
      rw [hdecomp]
      rfl
    have hlenj : (json ++
        List.replicate (aligned_size json.length - json.length) 0x20).length =
        aligned_size json.length := by
      simp [List.length_append, List.length_replicate]
      omega
    have hdropA : (glb_serialize json bin).drop
        (20 + aligned_size json.length) =
        u32le (aligned_size bin.length) ++ ([0x42, 0x49, 0x4E, 0x00] ++
          (bin ++
           List.replicate (aligned_size bin.length - bin.length) 0x00)) := by
      rw [← List.drop_drop, h20, List.drop_left' hlenj]
    refine ⟨hlen, rfl, ?_, ?_, ?_, rfl, ?_, aligned_size_mod _, ?_, ?_, ?_,
      aligned_size_mod _⟩
    · have h4 : ((glb_serialize json bin).drop 4).take 4 = u32le 2 := rfl
      rw [h4, decode_u32le]
    · have h8 : ((glb_serialize json bin).drop 8).take 4 =
          u32le (glb_total_size json.length bin.length) := rfl
      rw [h8, decode_u32le, Nat.mod_eq_of_lt hsize]
      unfold glb_total_size
      omega
    · have h12 : ((glb_serialize json bin).drop 12).take 4 =
          u32le (aligned_size json.length) := rfl
      rw [h12, decode_u32le, Nat.mod_eq_of_lt]
      unfold glb_total_size aligned_size at *
      omega
    · rw [h20]
      exact List.take_left' hlenj
    · rw [hdropA]
      have htake : (u32le (aligned_size bin.length) ++
          ([0x42, 0x49, 0x4E, 0x00] ++
           (bin ++ List.replicate (aligned_size bin.length - bin.length)
             0x00))).take 4 = u32le (aligned_size bin.length) := rfl
      rw [htake, decode_u32le, Nat.mod_eq_of_lt]
      unfold glb_total_size aligned_size at *
      omega
    · have hidx : 24 + aligned_size json.length =
          (20 + aligned_size json.length) + 4 := by omega
      rw [hidx, ← List.drop_drop, hdropA]
      rfl
    · have hidx : 28 + aligned_size json.length =
          (20 + aligned_size json.length) + 8 := by omega
      rw [hidx, ← List.drop_drop, hdropA]
      rfl

/-- C1 witness: the container properties instantiated at a concrete JSON
payload and blob, and the export-side equation instantiated at a concrete
export that succeeds. -/
theorem c1_glb_container_layout_witness :
    (glb_total_size ([0x7B, 0x7D] : List Nat).length
        ([1, 2, 3, 4, 5] : List Nat).length < 4294967296) ∧
    ((glb_serialize [0x7B, 0x7D] [1, 2, 3, 4, 5]).length =
      glb_total_size 2 5 ∧
     (glb_serialize [0x7B, 0x7D] [1, 2, 3, 4, 5]).take 4 =
      [0x67, 0x6C, 0x54, 0x46] ∧
     decode_u32 (((glb_serialize [0x7B, 0x7D] [1, 2, 3, 4, 5]).drop 4).take 4) =
      2 ∧
     decode_u32 (((glb_serialize [0x7B, 0x7D] [1, 2, 3, 4, 5]).drop 8).take 4) =
      12 + (8 + aligned_size 2) + (8 + aligned_size 5)) := by
  refine ⟨by decide, ?_, ?_, ?_, ?_⟩ <;>
    have h := (c1_glb_container_layout.2 [0x7B, 0x7D] [1, 2, 3, 4, 5]
      (by decide))
  · exact h.1
  · exact h.2.1
  · exact h.2.2.1
  · exact h.2.2.2.1

/-- C2 witness: one concrete emit_buffer call records the view (0, 2, 8),
which the theorem shows aligned and in bounds. -/
theorem c2_buffer_views_witness :
    BufferView.mk 0 2 8 ∈
      (run_emit_buffers oracleZ [([5, 6], 8)]).buffer_views ∧
    ((BufferView.mk 0 2 8).offset % 16 = 0 ∧
      (BufferView.mk 0 2 8).offset + (BufferView.mk 0 2 8).length ≤
        (run_emit_buffers oracleZ [([5, 6], 8)]).glb_buffer_data.length) :=
  ⟨by decide,
   c2_buffer_views_aligned_and_in_bounds oracleZ [([5, 6], 8)] _ (by decide)⟩

/-- C7 witness: the idempotence theorem applied at a concrete key from the
empty state. -/
theorem c7_emit_image_idempotent_witness :
    texW.path = texW.path ∧
    (emit_image oracleZ texW .baseColor .bc 5 .srgb
        (emit_image oracleZ texW .baseColor .bc 5 .srgb
          initialRemapState).2).2 =
      (emit_image oracleZ texW .baseColor .bc 5 .srgb initialRemapState).2 :=
  ⟨rfl,
   (c7_emit_image_idempotent oracleZ initialRemapState texW texW .baseColor
     .bc 5 .srgb rfl).2.1⟩

lemma walkFrame_refl (s : RemapState) : WalkFrame s s := ⟨rfl, rfl, rfl⟩

lemma walkFrame_trans {a b c : RemapState} (h1 : WalkFrame a b)
    (h2 : WalkFrame b c) : WalkFrame a c :=
  ⟨h2.1.trans h1.1, h2.2.1.trans h1.2.1, h2.2.2.trans h1.2.2⟩

lemma matFrame_refl (s : RemapState) : MatFrame s s :=
  ⟨⟨walkFrame_refl s, rfl⟩, rfl, rfl⟩

lemma matFrame_trans {a b c : RemapState} (h1 : MatFrame a b)
    (h2 : MatFrame b c) : MatFrame a c :=
  ⟨⟨walkFrame_trans h1.1.1 h2.1.1, h2.1.2.trans h1.1.2⟩,
   h2.2.1.trans h1.2.1, h2.2.2.trans h1.2.2⟩

lemma matFrame_emit_buffer (o : Oracles) (b : List Nat) (t : Nat)
    (s : RemapState) : MatFrame s (emit_buffer o b t s).2 := by
  unfold emit_buffer
  cases h : alookup (o.hashBuffer b t) s.buffer_hash <;>
    simp [h, MatFrame, EmitFrame, WalkFrame]

lemma matFrame_emit_accessor {o : Oracles} {v : Nat} {fmt : VkFormat}
    {off st cnt : Nat} {s : RemapState} {i : Nat} {s' : RemapState}
    (h : emit_accessor o v fmt off st cnt s = .ok (i, s')) : MatFrame s s' := by
  unfold emit_accessor at h
  cases hl : alookup (o.hashAccessor v fmt off st cnt) s.accessor_hash with
  | some j =>
      simp only [hl] at h
      cases h
      exact matFrame_refl s
  | none =>
      simp only [hl] at h
      cases hc : get_accessor_component fmt with
      | error e => simp [hc] at h
      | ok comp =>
          cases ht : get_accessor_type fmt with
          | error e => simp [hc, ht] at h
          | ok ty =>
              simp only [hc, ht] at h
              cases h
              simp [MatFrame, EmitFrame, WalkFrame]

lemma matFrame_setAccessorAABB (s : RemapState) (i : Nat) (aabb : AABB) :
    MatFrame s (setAccessorAABB s i aabb) := by
  simp [setAccessorAABB, MatFrame, EmitFrame, WalkFrame]

lemma matFrame_emit_image (o : Oracles) (tex : MaterialTexture)
    (ty : TextureRole) (comp : TextureCompressionFamily) (q : Nat)
    (mode : TextureMode) (s : RemapState) :
    MatFrame s (emit_image o tex ty comp q mode s).2 := by
  unfold emit_image
  cases h : alookup (o.hashImage tex.path ty comp q mode) s.image_hash <;>
    simp [h, MatFrame, EmitFrame, WalkFrame]

lemma matFrame_emit_sampler (o : Oracles) (samp : StockSampler)
    (s : RemapState) : MatFrame s (emit_sampler o samp s).2 := by
  unfold emit_sampler
  cases h : alookup (o.hashSampler samp) s.sampler_hash <;>
    simp [h, MatFrame, EmitFrame, WalkFrame]

lemma matFrame_emit_texture (o : Oracles) (tex : MaterialTexture)
    (samp : StockSampler) (ty : TextureRole)
    (comp : TextureCompressionFamily) (q : Nat) (mode : TextureMode)
    (s : RemapState) :
    MatFrame s (emit_texture o tex samp ty comp q mode s).2 := by
  unfold emit_texture
  rcases h1 : emit_image o tex ty comp q mode s with ⟨i1, s1⟩
  have f1 : MatFrame s s1 := by
    have := matFrame_emit_image o tex ty comp q mode s
    rw [h1] at this
    exact this
  rcases h2 : emit_sampler o samp s1 with ⟨i2, s2⟩
  have f2 : MatFrame s1 s2 := by
    have := matFrame_emit_sampler o samp s1
    rw [h2] at this
    exact this
  have f12 := matFrame_trans f1 f2
  simp only [h1, h2]
  cases h3 : alookup (o.hashTexture i1 i2) s2.texture_hash with
  | some i => simpa [h3] using f12
  | none =>
      refine matFrame_trans f12 ?_
      simp [h3, MatFrame, EmitFrame, WalkFrame]

lemma matFrame_texture_slot (o : Oracles) (tex : MaterialTexture)
    (samp : StockSampler) (role : TextureRole)
    (comp : TextureCompressionFamily) (q : Nat) (mode : TextureMode)
    (set : EmittedMaterial → Int → EmittedMaterial)
    (es : EmittedMaterial × RemapState) :
    MatFrame es.2 (texture_slot o tex samp role comp q mode set es).2 := by
  unfold texture_slot
  split
  · rcases h : emit_texture o tex samp role comp q mode es.2 with ⟨t, s'⟩
    have := matFrame_emit_texture o tex samp role comp q mode es.2
    rw [h] at this
    simpa [h] using this
  · exact matFrame_refl _

/-! List helpers for the resize/set bookkeeping of the material cache. -/

lemma resizeTo_length (n : Nat) (d : α) (l : List α) :
    (resizeTo n d l).length = max n l.length := by
  unfold resizeTo
  simp [List.length_append, List.length_replicate]
  omega

lemma nthD_replicate (m : Nat) (d : α) (j : Nat) :
    nthD (List.replicate m d) j d = d := by
  induction m generalizing j with
  | zero => rfl
  | succ k ih =>
      cases j with
      | zero => rfl
      | succ j' =>
          rw [List.replicate_succ]
          exact ih j'

lemma nthD_append_left {l l' : List α} {i : Nat} (d : α) (h : i < l.length) :
    nthD (l ++ l') i d = nthD l i d := by
  induction l generalizing i with
  | nil => cases h
  | cons x xs ih =>
      cases i with
      | zero => rfl
      | succ i' => exact ih (by simpa using h)

lemma nthD_append_right {l l' : List α} {i : Nat} (d : α)
    (h : l.length ≤ i) : nthD (l ++ l') i d = nthD l' (i - l.length) d := by
  induction l generalizing i with
  | nil => simp [nthD]
  | cons x xs ih =>
      cases i with
      | zero => cases h
      | succ i' => simpa using ih (by simpa using h)

lemma resizeTo_nthD (n : Nat) (d : α) (l : List α) (j : Nat) :
    nthD (resizeTo n d l) j d =
      if j < l.length then nthD l j d else d := by
  unfold resizeTo
  by_cases h : j < l.length
  · rw [if_pos h, nthD_append_left d h]
  · rw [if_neg h, nthD_append_right d (by omega), nthD_replicate]

lemma nthD_set_ne (l : List α) (i j : Nat) (v : α) (d : α) (h : i ≠ j) :
    nthD (l.set i v) j d = nthD l j d := by
  induction l generalizing i j with
  | nil => rfl
  | cons x xs ih =>
      cases i with
      | zero =>
          cases j with
          | zero => exact absurd rfl h
          | succ j' => rfl
      | succ i' =>
          cases j with
          | zero => rfl
          | succ j' => exact ih i' j' (by omega)

lemma nthD_set_self (l : List α) (i : Nat) (v : α) (d : α)
    (h : i < l.length) : nthD (l.set i v) i d = v := by
  induction l generalizing i with
  | nil => cases h
  | cons x xs ih =>
      cases i with
      | zero => rfl
      | succ i' => exact ih i' (by simpa using h)

lemma nthD_map_of_lt (f : α → β) (l : List α) (j : Nat) (da : α) (db : β)
    (h : j < l.length) :
    nthD (l.map f) j db = f (nthD l j da) := by
  induction l generalizing j with
  | nil => cases h
  | cons x xs ih =>
      cases j with
      | zero => rfl
      | succ j' => exact ih j' (by simpa using h)

lemma nthD_append_self (l : List α) (x : α) (d : α) :
    nthD (l ++ [x]) l.length d = x := by
  induction l with
  | nil => rfl
  | cons y ys ih => simpa using ih

lemma nthD_of_le (l : List α) (i : Nat) (d : α) (h : l.length ≤ i) :
    nthD l i d = d := by
  induction l generalizing i with
  | nil => rfl
  | cons x xs ih =>
      cases i with
      | zero => cases h
      | succ i' => exact ih i' (by simpa using h)

/-- Effect of emit_material on the material cache fields: the hash set is
untouched, the cache grows to cover `rm`, and every other slot keeps its
value (new slots are value-initialized). -/
lemma emit_material_spec (o : Oracles) (opts : ExportOptions) (rm : Nat)
    (s : RemapState) :
    EmitFrame s (emit_material o opts rm s) ∧
    (emit_material o opts rm s).material_hash = s.material_hash ∧
    (emit_material o opts rm s).material_cache.length =
      max s.material_cache.length (rm + 1) ∧
    (∀ j, j ≠ rm →
      nthD (emit_material o opts rm s).material_cache j
          defaultEmittedMaterial =
        if j < s.material_cache.length then
          nthD s.material_cache j defaultEmittedMaterial
        else defaultEmittedMaterial) := by
  simp only [emit_material]
  generalize nthD s.materialR.info rm defaultMaterialInfo = mat
  set s0 : RemapState := { s with
    material_cache :=
      resizeTo (max s.material_cache.length (rm + 1)) defaultEmittedMaterial
        s.material_cache } with hs0
  set es0 := (nthD s0.material_cache rm defaultEmittedMaterial, s0) with he0
  set es1 := texture_slot o mat.normal mat.sampler .normal opts.compression
    opts.texcomp_quality .rgb (fun e t => { e with normal := t }) es0 with he1
  set es2 := texture_slot o mat.occlusion mat.sampler .occlusion
    opts.compression opts.texcomp_quality .rgb
    (fun e t => { e with occlusion := t }) es1 with he2
  set es3 := texture_slot o mat.base_color mat.sampler .baseColor
    opts.compression opts.texcomp_quality
    (if mat.pipeline ≠ DrawPipeline.solid then .srgba else .srgb)
    (fun e t => { e with base_color := t }) es2 with he3
  set es4 := texture_slot o mat.metallic_roughness mat.sampler
    .metallicRoughness opts.compression opts.texcomp_quality .rgb
    (fun e t => { e with metallic_roughness := t }) es3 with he4
  set es5 := texture_slot o mat.emissive mat.sampler .emissive
    opts.compression opts.texcomp_quality .srgb
    (fun e t => { e with emissive := t }) es4 with he5
  have f : MatFrame s0 es5.2 := by
    have f1 := matFrame_texture_slot o mat.normal mat.sampler .normal
      opts.compression opts.texcomp_quality .rgb
      (fun e t => { e with normal := t }) es0
    have f2 := matFrame_texture_slot o mat.occlusion mat.sampler .occlusion
      opts.compression opts.texcomp_quality .rgb
      (fun e t => { e with occlusion := t }) es1
    have f3 := matFrame_texture_slot o mat.base_color mat.sampler .baseColor
      opts.compression opts.texcomp_quality
      (if mat.pipeline ≠ DrawPipeline.solid then .srgba else .srgb)
      (fun e t => { e with base_color := t }) es2
    have f4 := matFrame_texture_slot o mat.metallic_roughness mat.sampler
      .metallicRoughness opts.compression opts.texcomp_quality .rgb
      (fun e t => { e with metallic_roughness := t }) es3
    have f5 := matFrame_texture_slot o mat.emissive mat.sampler .emissive
      opts.compression opts.texcomp_quality .srgb
      (fun e t => { e with emissive := t }) es4
    rw [← he1] at f1
    rw [← he2] at f2
    rw [← he3] at f3
    rw [← he4] at f4
    rw [← he5] at f5
    have h0 : es0.2 = s0 := rfl
    rw [h0] at f1
    exact matFrame_trans f1 (matFrame_trans f2 (matFrame_trans f3
      (matFrame_trans f4 f5)))
  obtain ⟨⟨⟨hmr, hmar, henv⟩, hmh⟩, hmc, hmhash⟩ := f
  have hs0mc : s0.material_cache =
      resizeTo (max s.material_cache.length (rm + 1)) defaultEmittedMaterial
        s.material_cache := rfl
  refine ⟨⟨⟨?_, ?_, ?_⟩, ?_⟩, ?_, ?_, ?_⟩
  · simpa [hs0] using hmr
  · simpa [hs0] using hmar
  · simpa [hs0] using henv
  · simpa [hs0] using hmh
  · simpa [hs0] using hmhash
  · simp only [List.length_set, hmc, hs0mc, resizeTo_length]
    omega
  · intro j hj
    rw [nthD_set_ne _ _ _ _ _ (Ne.symm hj), hmc, hs0mc, resizeTo_nthD]

lemma matFrame_emit_mesh_index_phase {o : Oracles} {mesh : Mesh}
    {s : RemapState} {i : Int} {s' : RemapState}
    (h : emit_mesh_index_phase o mesh s = .ok (i, s')) : MatFrame s s' := by
  unfold emit_mesh_index_phase at h
  by_cases hi : mesh.indices = []
  · rw [if_pos hi] at h
    cases h
    exact matFrame_refl s
  · rw [if_neg hi] at h
    rcases hb : emit_buffer o mesh.indices
        (if mesh.index_type = IndexType.u16 then 2 else 4) s with ⟨vi, s1⟩
    have fb : MatFrame s s1 := by
      have := matFrame_emit_buffer o mesh.indices
        (if mesh.index_type = IndexType.u16 then 2 else 4) s
      rw [hb] at this
      exact this
    simp only [hb] at h
    cases ha : emit_accessor o vi
        (if mesh.index_type = IndexType.u16 then VkFormat.r16Uint
         else VkFormat.r32Uint) 0
        (if mesh.index_type = IndexType.u16 then 2 else 4) mesh.count s1 with
    | error e => simp [ha] at h
    | ok p =>
        obtain ⟨ai, s2⟩ := p
        simp only [ha] at h
        cases h
        exact matFrame_trans fb (matFrame_emit_accessor ha)

lemma emit_mesh_material_phase_eq_no (o : Oracles) (opts : ExportOptions)
    (mesh : Mesh) (s : RemapState) (h : mesh.has_material = false) :
    emit_mesh_material_phase o opts mesh s = s := by
  unfold emit_mesh_material_phase
  simp [h]

lemma emit_mesh_material_phase_eq_hit (o : Oracles) (opts : ExportOptions)
    (mesh : Mesh) (s : RemapState) (h : mesh.has_material = true)
    (hm : nthD s.materialR.to_index mesh.material_index 0 ∈ s.material_hash) :
    emit_mesh_material_phase o opts mesh s = s := by
  unfold emit_mesh_material_phase
  simp [h, hm]

lemma emit_mesh_material_phase_eq_miss (o : Oracles) (opts : ExportOptions)
    (mesh : Mesh) (s : RemapState) (h : mesh.has_material = true)
    (hm : nthD s.materialR.to_index mesh.material_index 0 ∉ s.material_hash) :
    emit_mesh_material_phase o opts mesh s =
      { emit_material o opts
          (nthD s.materialR.to_index mesh.material_index 0) s with
        material_hash :=
          nthD s.materialR.to_index mesh.material_index 0 ::
            (emit_material o opts
              (nthD s.materialR.to_index mesh.material_index 0) s).material_hash } := by
  unfold emit_mesh_material_phase
  simp [h, hm]

lemma emit_mesh_material_phase_spec (o : Oracles) (opts : ExportOptions)
    (mesh : Mesh) (s : RemapState) :
    EmitFrame s (emit_mesh_material_phase o opts mesh s) ∧
    (mesh.has_material = false →
      (emit_mesh_material_phase o opts mesh s).material_cache =
        s.material_cache ∧
      (emit_mesh_material_phase o opts mesh s).material_hash =
        s.material_hash) ∧
    (mesh.has_material = true →
      ((nthD s.materialR.to_index mesh.material_index 0 ∈ s.material_hash →
        (emit_mesh_material_phase o opts mesh s).material_cache =
          s.material_cache ∧
        (emit_mesh_material_phase o opts mesh s).material_hash =
          s.material_hash) ∧
       (nthD s.materialR.to_index mesh.material_index 0 ∉ s.material_hash →
        (emit_mesh_material_phase o opts mesh s).material_hash =
          nthD s.materialR.to_index mesh.material_index 0 ::
            s.material_hash ∧
        (emit_mesh_material_phase o opts mesh s).material_cache.length =
          max s.material_cache.length
            (nthD s.materialR.to_index mesh.material_index 0 + 1) ∧
        ∀ j, j ≠ nthD s.materialR.to_index mesh.material_index 0 →
          nthD (emit_mesh_material_phase o opts mesh s).material_cache j
              defaultEmittedMaterial =
            if j < s.material_cache.length then
              nthD s.material_cache j defaultEmittedMaterial
            else defaultEmittedMaterial))) := by
  rcases Bool.eq_false_or_eq_true mesh.has_material with hm | hm
  · by_cases hmem :
        nthD s.materialR.to_index mesh.material_index 0 ∈ s.material_hash
    · rw [emit_mesh_material_phase_eq_hit o opts mesh s hm hmem]
      refine ⟨⟨walkFrame_refl s, rfl⟩, fun hc => ?_,
        fun _ => ⟨fun _ => ⟨rfl, rfl⟩, fun hn => absurd hmem hn⟩⟩
      rw [hm] at hc
      cases hc
    · obtain ⟨hef, hmh, hlen, hgetd⟩ := emit_material_spec o opts
        (nthD s.materialR.to_index mesh.material_index 0) s
      rw [emit_mesh_material_phase_eq_miss o opts mesh s hm hmem]
      refine ⟨⟨hef.1, hef.2⟩, fun hc => ?_,
        fun _ => ⟨fun hmem' => absurd hmem' hmem,
          fun _ => ⟨by simp [hmh], by simpa using hlen,
            by simpa using hgetd⟩⟩⟩
      rw [hm] at hc
      cases hc
  · rw [emit_mesh_material_phase_eq_no o opts mesh s hm]
    refine ⟨⟨walkFrame_refl s, rfl⟩, fun _ => ⟨rfl, rfl⟩, fun hc => ?_⟩
    rw [hm] at hc
    cases hc

lemma matFrame_buffer_opt (o : Oracles) (b : List Nat) (t : Nat)
    (s : RemapState) (c : Prop) [Decidable c] :
    MatFrame s (if c then emit_buffer o b t s else (0, s)).2 := by
  split
  · exact matFrame_emit_buffer o b t s
  · exact matFrame_refl s

lemma matFrame_emit_attributes (o : Oracles) (mesh : Mesh) (pb ab : Nat)
    (l : List MeshAttribute) :
    ∀ (acc : Nat × List Int) (s : RemapState) (r : Nat × List Int)
      (s' : RemapState),
      emit_attributes o mesh pb ab l acc s = .ok (r, s') → MatFrame s s' := by
  induction l with
  | nil =>
      intro acc s r s' h
      unfold emit_attributes at h
      cases h
      exact matFrame_refl s
  | cons a rest ih =>
      intro acc s r s' h
      obtain ⟨mask, accs⟩ := acc
      rw [emit_attributes] at h
      by_cases hf :
          (nthD mesh.attribute_layout a.idx defaultLayout).format =
            VkFormat.undefined
      · rw [if_pos hf] at h
        exact ih _ _ _ _ h
      · rw [if_neg hf] at h
        by_cases hp : a = MeshAttribute.position
        · rw [if_pos hp] at h
          cases ha : emit_accessor o pb
              (nthD mesh.attribute_layout a.idx defaultLayout).format
              (nthD mesh.attribute_layout a.idx defaultLayout).offset
              mesh.position_stride
              (mesh.positions.length / mesh.position_stride) s with
          | error e => simp [ha] at h
          | ok p =>
              obtain ⟨ai, s1⟩ := p
              simp only [ha] at h
              exact matFrame_trans
                (matFrame_trans (matFrame_emit_accessor ha)
                  (matFrame_setAccessorAABB s1 ai mesh.static_aabb))
                (ih _ _ _ _ h)
        · rw [if_neg hp] at h
          cases ha : emit_accessor o ab
              (nthD mesh.attribute_layout a.idx defaultLayout).format
              (nthD mesh.attribute_layout a.idx defaultLayout).offset
              mesh.attribute_stride
              (mesh.attributes.length / mesh.attribute_stride) s with
          | error e => simp [ha] at h
          | ok p =>
              obtain ⟨ai, s1⟩ := p
              simp only [ha] at h
              exact matFrame_trans (matFrame_emit_accessor ha) (ih _ _ _ _ h)

/-- Combined effect of emit_mesh on the fields tracked across the walk: the
frame, and the material-cache transition determined by the canonical
material reference of the emitted mesh. -/
lemma emit_mesh_spec {o : Oracles} {opts : ExportOptions} {rm : Nat}
    {s s' : RemapState} (h : emit_mesh o opts rm s = .ok s') :
    EmitFrame s s' ∧
    (∀ r, meshRefOf s.meshR s.materialR rm = some r →
      (r ∈ s.material_hash →
        s'.material_cache = s.material_cache ∧
        s'.material_hash = s.material_hash) ∧
      (r ∉ s.material_hash →
        s'.material_hash = r :: s.material_hash ∧
        s'.material_cache.length = max s.material_cache.length (r + 1) ∧
        ∀ j, j ≠ r →
          nthD s'.material_cache j defaultEmittedMaterial =
            if j < s.material_cache.length then
              nthD s.material_cache j defaultEmittedMaterial
            else defaultEmittedMaterial)) ∧
    (meshRefOf s.meshR s.materialR rm = none →
      s'.material_cache = s.material_cache ∧
      s'.material_hash = s.material_hash) := by
  simp only [emit_mesh] at h
  set mesh := nthD s.meshR.info rm defaultMesh with hmesh
  set s1 : RemapState := { s with
    mesh_cache := resizeTo (max s.mesh_cache.length (rm + 1))
      defaultEmittedMesh s.mesh_cache } with hs1
  have f1 : EmitFrame s s1 ∧ s1.material_cache = s.material_cache ∧
      s1.material_hash = s.material_hash := by
    refine ⟨⟨⟨rfl, rfl, rfl⟩, rfl⟩, rfl, rfl⟩
  cases hip : emit_mesh_index_phase o mesh s1 with
  | error e => simp [hip] at h
  | ok p =>
      obtain ⟨iacc, s2⟩ := p
      simp only [hip] at h
      have f2 : MatFrame s1 s2 := matFrame_emit_mesh_index_phase hip
      set s3 := emit_mesh_material_phase o opts mesh s2 with hs3
      obtain ⟨f3e, f3no, f3yes⟩ := emit_mesh_material_phase_spec o opts mesh s2
      rw [← hs3] at f3e f3no f3yes
      rcases hb4 : (if mesh.positions ≠ [] then
          emit_buffer o mesh.positions mesh.position_stride s3
        else (0, s3)) with ⟨pb, s4⟩
      have f4 : MatFrame s3 s4 := by
        have := matFrame_buffer_opt o mesh.positions mesh.position_stride s3
          (mesh.positions ≠ [])
        rw [hb4] at this
        exact this
      rcases hb5 : (if mesh.attributes ≠ [] then
          emit_buffer o mesh.attributes mesh.attribute_stride s4
        else (0, s4)) with ⟨ab, s5⟩
      have f5 : MatFrame s4 s5 := by
        have := matFrame_buffer_opt o mesh.attributes mesh.attribute_stride s4
          (mesh.attributes ≠ [])
        rw [hb5] at this
        exact this
      simp only [hb4, hb5] at h
      cases hat : emit_attributes o mesh pb ab attrList
          (0, List.replicate 7 0) s5 with
      | error e =>
          rw [hat] at h
          cases h
      | ok q =>
          obtain ⟨⟨mask, accs⟩, s6⟩ := q
          rw [hat] at h
          have f6 : MatFrame s5 s6 :=
            matFrame_emit_attributes o mesh pb ab attrList _ _ _ _ hat
          cases h
          -- s' is s6 with an updated mesh_cache
          have hfin : EmitFrame s6 { s6 with
              mesh_cache := s6.mesh_cache.set rm
                { index_accessor := iacc,
                  material := if mesh.has_material then
                    Int.ofNat mesh.material_index else -1,
                  attribute_mask := mask, attribute_accessor := accs } } ∧
              ({ s6 with
                mesh_cache := s6.mesh_cache.set rm
                  { index_accessor := iacc,
                    material := if mesh.has_material then
                      Int.ofNat mesh.material_index else -1,
                    attribute_mask := mask,
                    attribute_accessor := accs } } : RemapState).material_cache
                = s6.material_cache ∧
              ({ s6 with
                mesh_cache := s6.mesh_cache.set rm
                  { index_accessor := iacc,
                    material := if mesh.has_material then
                      Int.ofNat mesh.material_index else -1,
                    attribute_mask := mask,
                    attribute_accessor := accs } } : RemapState).material_hash
                = s6.material_hash :=
            ⟨⟨⟨rfl, rfl, rfl⟩, rfl⟩, rfl, rfl⟩
      -- collect the pieces
          have f456 : MatFrame s3 s6 := matFrame_trans f4 (matFrame_trans f5 f6)
          have hmc63 : s6.material_cache = s3.material_cache := f456.2.1
          have hmh63 : s6.material_hash = s3.material_hash := f456.2.2
          have hmc2 : s2.material_cache = s.material_cache := by
            rw [f2.2.1, f1.2.1]
          have hmh2 : s2.material_hash = s.material_hash := by
            rw [f2.2.2, f1.2.2]
          have hmatR2 : s2.materialR = s.materialR := by
            rw [f2.1.1.2.1]
          refine ⟨?_, ?_, ?_⟩
          · -- EmitFrame s s'
            refine ⟨⟨?_, ?_, ?_⟩, ?_⟩
            · rw [hfin.1.1.1, f456.1.1.1, f3e.1.1, f2.1.1.1]
            · rw [hfin.1.1.2.1, f456.1.1.2.1, f3e.1.2.1, f2.1.1.2.1]
            · rw [hfin.1.1.2.2, f456.1.1.2.2, f3e.1.2.2, f2.1.1.2.2]
            · rw [hfin.1.2, f456.1.2, f3e.2, f2.1.2]
          · -- has_material case
            intro r hr
            unfold meshRefOf at hr
            rw [← hmesh] at hr
            by_cases hhm : mesh.has_material
            · simp only [if_pos hhm] at hr
              have hr' : r = nthD s.materialR.to_index mesh.material_index 0 := by
                cases hr
                rfl
              subst hr'
              have hy := f3yes hhm
              rw [hmatR2, hmh2] at hy
              constructor
              · intro hmem
                obtain ⟨hc, hh⟩ := hy.1 hmem
                constructor
                · rw [hfin.2.1, hmc63, hc, hmc2]
                · rw [hfin.2.2, hmh63, hh]
              · intro hmem
                obtain ⟨hh, hlen, hget⟩ := hy.2 hmem
                refine ⟨?_, ?_, ?_⟩
                · rw [hfin.2.2, hmh63, hh]
                · rw [hfin.2.1, hmc63, hlen, hmc2]
                · intro j hj
                  rw [hfin.2.1, hmc63, hget j hj, hmc2]
            · rw [if_neg hhm] at hr
              cases hr
          · -- no-material case
            intro hnone
            unfold meshRefOf at hnone
            rw [← hmesh] at hnone
            by_cases hhm : mesh.has_material
            · rw [if_pos hhm] at hnone
              cases hnone
            · have hno := f3no (by simpa using hhm)
              constructor
              · rw [hfin.2.1, hmc63, hno.1, hmc2]
              · rw [hfin.2.2, hmh63, hno.2, hmh2]

lemma matInv_append_mem {M : Remap Mesh} {MA : Remap MaterialInfo}
    {s : RemapState} {refs : List Nat} (hInv : MatInv M MA s refs)
    {extra : List Nat} (hextra : ∀ r ∈ extra, r ∈ s.material_hash) :
    MatInv M MA s (refs ++ extra) := by
  obtain ⟨h1, h2, h3, h4, h5, h6⟩ := hInv
  refine ⟨h1, h2, ?_, h4, h5, h6⟩
  intro r
  rw [List.mem_append]
  constructor
  · intro hr
    exact Or.inl ((h3 r).1 hr)
  · rintro (hr | hr)
    · exact (h3 r).2 hr
    · exact hextra r hr

/-- Processing one submesh entry of emit_submeshes preserves the invariant,
extending the reference list by the mesh's canonical material reference. -/
lemma submesh_step_inv {o : Oracles} {opts : ExportOptions}
    {M : Remap Mesh} {MA : Remap MaterialInfo} {m : Nat}
    {s s' : RemapState} {refs : List Nat} (hInv : MatInv M MA s refs)
    (h : (if nthD s.meshR.to_index m 0 ∈ s.mesh_hash then Except.ok s
          else
            match emit_mesh o opts (nthD s.meshR.to_index m 0) s with
            | .ok s1 => .ok { s1 with
                mesh_hash := nthD s.meshR.to_index m 0 :: s1.mesh_hash }
            | .error e => .error e) = .ok s') :
    MatInv M MA s'
      (refs ++ (meshRefOf M MA (nthD M.to_index m 0)).toList) ∧
    s'.environment_cache = s.environment_cache := by
  have hM : s.meshR = M := hInv.1
  rw [hM] at h
  by_cases hmem : nthD M.to_index m 0 ∈ s.mesh_hash
  · rw [if_pos hmem] at h
    cases h
    refine ⟨matInv_append_mem hInv ?_, rfl⟩
    intro r hr
    cases hro : meshRefOf M MA (nthD M.to_index m 0) with
    | none => rw [hro] at hr; cases hr
    | some r' =>
        rw [hro] at hr
        simp only [Option.toList_some, List.mem_singleton] at hr
        subst hr
        exact hInv.2.2.2.2.1 _ hmem r hro
  · rw [if_neg hmem] at h
    cases hem : emit_mesh o opts (nthD M.to_index m 0) s with
    | error e => rw [hem] at h; cases h
    | ok s1 =>
        rw [hem] at h
        cases h
        obtain ⟨hef, hsome, hnone⟩ := emit_mesh_spec hem
        obtain ⟨h1, h2, h3, h4, h5, h6⟩ := hInv
        have hmr1 : s1.meshR = M := by rw [hef.1.1, h1]
        have hmar1 : s1.materialR = MA := by rw [hef.1.2.1, h2]
        have henv1 : s1.environment_cache = s.environment_cache := hef.1.2.2
        have hmh1 : s1.mesh_hash = s.mesh_hash := hef.2
        rw [h1, h2] at hsome hnone
        cases hro : meshRefOf M MA (nthD M.to_index m 0) with
        | none =>
            obtain ⟨hc, hh⟩ := hnone hro
            refine ⟨⟨hmr1, hmar1, ?_, ?_, ?_, ?_⟩, henv1⟩
            · intro r
              rw [hh]
              simpa using h3 r
            · rw [hc, hh]
              exact h4
            · intro i hi r hr
              rw [hmh1] at hi
              simp only [List.mem_cons] at hi
              rcases hi with hi | hi
              · subst hi
                rw [hro] at hr
                cases hr
              · rw [hh]
                exact h5 i hi r hr
            · intro j hj hjn
              rw [hc] at hj ⊢
              rw [hh] at hjn
              exact h6 j hj hjn
        | some r =>
            by_cases hrmem : r ∈ s.material_hash
            · obtain ⟨hc, hh⟩ := (hsome r hro).1 hrmem
              refine ⟨⟨hmr1, hmar1, ?_, ?_, ?_, ?_⟩, henv1⟩
              · intro r'
                rw [hh]
                simp only [List.mem_append, Option.toList_some,
                  List.mem_singleton]
                constructor
                · intro hr'
                  exact Or.inl ((h3 r').1 hr')
                · rintro (hr' | hr')
                  · exact (h3 r').2 hr'
                  · subst hr'
                    exact hrmem
              · rw [hc, hh]
                exact h4
              · intro i hi r' hr'
                rw [hmh1] at hi
                simp only [List.mem_cons] at hi
                rw [hh]
                rcases hi with hi | hi
                · subst hi
                  rw [hro] at hr'
                  cases hr'
                  exact hrmem
                · exact h5 i hi r' hr'
              · intro j hj hjn
                rw [hc] at hj ⊢
                rw [hh] at hjn
                exact h6 j hj hjn
            · obtain ⟨hh, hlen, hget⟩ := (hsome r hro).2 hrmem
              refine ⟨⟨hmr1, hmar1, ?_, ?_, ?_, ?_⟩, henv1⟩
              · intro r'
                rw [hh]
                simp only [List.mem_cons, List.mem_append,
                  Option.toList_some, List.mem_singleton, List.not_mem_nil,
                  or_false, h3 r']
                exact or_comm
              · rw [hlen, hh, h4]
                show maxPlus s.material_hash ⊔ (r + 1) =
                  (r + 1) ⊔ maxPlus s.material_hash
                exact Nat.max_comm _ _
              · intro i hi r' hr'
                rw [hmh1] at hi
                simp only [List.mem_cons] at hi
                rw [hh]
                rcases hi with hi | hi
                · subst hi
                  rw [hro] at hr'
                  cases hr'
                  exact List.mem_cons_self _ _
                · exact List.mem_cons_of_mem _ (h5 i hi r' hr')
              · intro j hj hjn
                rw [hh] at hjn
                simp only [List.mem_cons, not_or] at hjn
                rw [hget j hjn.1]
                by_cases hjl : j < s.material_cache.length
                · rw [if_pos hjl]
                  exact h6 j hjl hjn.2
                · rw [if_neg hjl]

lemma nodeRefs_cons (M : Remap Mesh) (MA : Remap MaterialInfo) (m : Nat)
    (rest : List Nat) :
    nodeRefs M MA (m :: rest) =
      (meshRefOf M MA (nthD M.to_index m 0)).toList ++ nodeRefs M MA rest := by
  unfold nodeRefs
  cases h : meshRefOf M MA (nthD M.to_index m 0) <;>
    simp [List.filterMap_cons, h]

lemma emit_submeshes_inv (o : Oracles) (opts : ExportOptions)
    (M : Remap Mesh) (MA : Remap MaterialInfo) :
    ∀ (ms : List Nat) (s : RemapState) (refs : List Nat) (g : List Nat)
      (s' : RemapState), MatInv M MA s refs →
      emit_submeshes o opts ms s = .ok (g, s') →
      MatInv M MA s' (refs ++ nodeRefs M MA ms) ∧
      s'.environment_cache = s.environment_cache := by
  intro ms
  induction ms with
  | nil =>
      intro s refs g s' hInv h
      unfold emit_submeshes at h
      cases h
      have hnil : refs ++ nodeRefs M MA [] = refs := by simp [nodeRefs]
      rw [hnil]
      exact ⟨hInv, rfl⟩
  | cons m rest ih =>
      intro s refs g s' hInv h
      rw [emit_submeshes] at h
      cases hstep : (if nthD s.meshR.to_index m 0 ∈ s.mesh_hash then
          Except.ok s
        else
          match emit_mesh o opts (nthD s.meshR.to_index m 0) s with
          | .ok s1 => .ok { s1 with
              mesh_hash := nthD s.meshR.to_index m 0 :: s1.mesh_hash }
          | .error e => .error e) with
      | error e =>
          simp only [hstep] at h
          cases h
      | ok s1 =>
          simp only [hstep] at h
          obtain ⟨hInv1, henv1⟩ := submesh_step_inv hInv hstep
          cases hrest : emit_submeshes o opts rest s1 with
          | error e =>
              simp only [hrest] at h
              cases h
          | ok p =>
              obtain ⟨g1, s2⟩ := p
              simp only [hrest] at h
              obtain ⟨-, rfl⟩ : g = nthD s.meshR.to_index m 0 :: g1 ∧ s' = s2 := by
                cases h
                exact ⟨rfl, rfl⟩
              obtain ⟨hInv2, henv2⟩ := ih s1 _ g1 _ hInv1 hrest
              rw [nodeRefs_cons, ← List.append_assoc]
              exact ⟨hInv2, henv2.trans henv1⟩

lemma emit_meshes_inv (o : Oracles) (opts : ExportOptions)
    (M : Remap Mesh) (MA : Remap MaterialInfo) (ms : List Nat)
    (s : RemapState) (refs : List Nat) (gi : Nat) (s' : RemapState)
    (hInv : MatInv M MA s refs)
    (h : emit_meshes o opts ms s = .ok (gi, s')) :
    MatInv M MA s' (refs ++ nodeRefs M MA ms) ∧
    s'.environment_cache = s.environment_cache := by
  unfold emit_meshes at h
  cases hsub : emit_submeshes o opts ms s with
  | error e =>
      simp only [hsub] at h
      cases h
  | ok p =>
      obtain ⟨g, s1⟩ := p
      simp only [hsub] at h
      obtain ⟨hInv1, henv1⟩ := emit_submeshes_inv o opts M MA ms s refs g s1
        hInv hsub
      cases hl : alookup (o.hashMeshGroup g) s1.mesh_group_hash with
      | some i =>
          simp only [hl] at h
          cases h
          exact ⟨hInv1, henv1⟩
      | none =>
          simp only [hl] at h
          cases h
          obtain ⟨h1, h2, h3, h4, h5, h6⟩ := hInv1
          exact ⟨⟨h1, h2, h3, h4, h5, h6⟩, henv1⟩

lemma walk_nodes_inv (o : Oracles) (opts : ExportOptions)
    (scene : SceneInformation) (M : Remap Mesh) (MA : Remap MaterialInfo) :
    ∀ (ns : List Node) (idx : Nat) (s : RemapState) (refs : List Nat)
      (js : List Json) (s' : RemapState), MatInv M MA s refs →
      walk_nodes o opts scene idx ns s = .ok (js, s') →
      MatInv M MA s'
        (refs ++ ns.flatMap (fun n => nodeRefs M MA n.meshes)) ∧
      s'.environment_cache = s.environment_cache := by
  intro ns
  induction ns with
  | nil =>
      intro idx s refs js s' hInv h
      unfold walk_nodes at h
      cases h
      have hnil : refs ++ ([] : List Node).flatMap
          (fun n => nodeRefs M MA n.meshes) = refs := by simp
      rw [hnil]
      exact ⟨hInv, rfl⟩
  | cons node rest ih =>
      intro idx s refs js s' hInv h
      rw [walk_nodes] at h
      by_cases hnm : node.meshes ≠ []
      · simp only [if_pos hnm] at h
        cases hem : emit_meshes o opts node.meshes s with
        | error e =>
            simp only [hem] at h
            cases h
        | ok p =>
            obtain ⟨gi, s1⟩ := p
            simp only [hem] at h
            obtain ⟨hInv1, henv1⟩ := emit_meshes_inv o opts M MA node.meshes
              s refs gi s1 hInv hem
            cases hrest : walk_nodes o opts scene (idx + 1) rest s1 with
            | error e =>
                simp only [hrest] at h
                cases h
            | ok q =>
                obtain ⟨js1, s2⟩ := q
                simp only [hrest] at h
                obtain ⟨-, rfl⟩ : js = Json.obj _ :: js1 ∧ s' = s2 := by
                  cases h
                  exact ⟨rfl, rfl⟩
                obtain ⟨hInv2, henv2⟩ := ih (idx + 1) s1 _ js1 _ hInv1 hrest
                rw [List.flatMap_cons, ← List.append_assoc]
                exact ⟨hInv2, henv2.trans henv1⟩
      · simp only [if_neg hnm] at h
        cases hrest : walk_nodes o opts scene (idx + 1) rest s with
        | error e =>
            simp only [hrest] at h
            cases h
        | ok q =>
            obtain ⟨js1, s2⟩ := q
            simp only [hrest] at h
            obtain ⟨-, rfl⟩ : js = Json.obj _ :: js1 ∧ s' = s2 := by
              cases h
              exact ⟨rfl, rfl⟩
            obtain ⟨hInv2, henv2⟩ := ih (idx + 1) s _ js1 _ hInv hrest
            have hempty : node.meshes = [] := by
              by_contra hc
              exact hnm hc
            rw [List.flatMap_cons, hempty]
            simpa [nodeRefs] using ⟨hInv2, henv2⟩

/-! Bookkeeping for the environment emission and the closing C9/C10
arguments. -/

lemma maxPlus_le (xs : List Nat) (n : Nat) :
    maxPlus xs ≤ n ↔ ∀ x ∈ xs, x + 1 ≤ n := by
  induction xs with
  | nil => simp [maxPlus]
  | cons x rest ih =>
      unfold maxPlus
      rw [Nat.max_le, ih]
      simp

lemma mem_lt_maxPlus {xs : List Nat} {x : Nat} (h : x ∈ xs) :
    x + 1 ≤ maxPlus xs :=
  (maxPlus_le xs (maxPlus xs)).1 (Nat.le_refl _) x h

lemma maxPlus_congr (xs ys : List Nat) (h : ∀ r, r ∈ xs ↔ r ∈ ys) :
    maxPlus xs = maxPlus ys := by
  apply Nat.le_antisymm
  · rw [maxPlus_le]
    intro x hx
    exact mem_lt_maxPlus ((h x).1 hx)
  · rw [maxPlus_le]
    intro x hx
    exact mem_lt_maxPlus ((h x).2 hx)

lemma matFrame_env_texture_slot (o : Oracles) (path : String)
    (comp : TextureCompressionFamily) (q : Nat) (s : RemapState) :
    MatFrame s (env_texture_slot o path comp q s).2 := by
  unfold env_texture_slot
  split
  · rcases h : emit_texture o ⟨path, idMapping⟩ .linearClamp .emissive comp q
        .hdr s with ⟨t, s'⟩
    have := matFrame_emit_texture o ⟨path, idMapping⟩ .linearClamp .emissive
      comp q .hdr s
    rw [h] at this
    simpa [h] using this
  · exact matFrame_refl s

/-- Fields of emit_environment other than the environment cache and the
texture/image/sampler caches are untouched. -/
lemma emit_environment_fields (o : Oracles)
    (cube reflection irradiance : String) (inten : F) (fc : V3) (ff : F)
    (comp : TextureCompressionFamily) (q : Nat) (s : RemapState) :
    (emit_environment o cube reflection irradiance inten fc ff comp q
        s).meshR = s.meshR ∧
    (emit_environment o cube reflection irradiance inten fc ff comp q
        s).materialR = s.materialR ∧
    (emit_environment o cube reflection irradiance inten fc ff comp q
        s).material_cache = s.material_cache ∧
    (emit_environment o cube reflection irradiance inten fc ff comp q
        s).material_hash = s.material_hash ∧
    (emit_environment o cube reflection irradiance inten fc ff comp q
        s).mesh_hash = s.mesh_hash := by
  simp only [emit_environment]
  rcases h1 : env_texture_slot o cube comp q s with ⟨c1, s1⟩
  rcases h2 : env_texture_slot o reflection comp q s1 with ⟨c2, s2⟩
  rcases h3 : env_texture_slot o irradiance comp q s2 with ⟨c3, s3⟩
  have f1 : MatFrame s s1 := by
    have := matFrame_env_texture_slot o cube comp q s
    rw [h1] at this
    exact this
  have f2 : MatFrame s1 s2 := by
    have := matFrame_env_texture_slot o reflection comp q s1
    rw [h2] at this
    exact this
  have f3 : MatFrame s2 s3 := by
    have := matFrame_env_texture_slot o irradiance comp q s2
    rw [h3] at this
    exact this
  have f := matFrame_trans f1 (matFrame_trans f2 f3)
  simp only [h1, h2, h3]
  exact ⟨f.1.1.1, f.1.1.2.1, f.2.1, f.2.2, f.1.2⟩

/-- Materials member of the built document. -/
lemma memberLookup_materials (o : Oracles) (scene : SceneInformation)
    (st : RemapState) (nj : List Json) :
    memberLookup "materials" (buildDoc o scene st nj) =
      some (Json.arr (materialsJson st.material_cache)) := by
  by_cases hl : scene.lights = [] <;>
    by_cases he : st.environment_cache = [] <;>
      simp [buildDoc, memberLookup, hl, he]

/-- The extras member exists exactly when the environment cache is
non-empty, and then holds the environments array. -/
lemma memberLookup_extras (o : Oracles) (scene : SceneInformation)
    (st : RemapState) (nj : List Json) :
    memberLookup "extras" (buildDoc o scene st nj) =
      (if st.environment_cache ≠ [] then
        some (Json.obj [("environments",
          Json.arr (st.environment_cache.map envJson))])
      else none) := by
  by_cases hl : scene.lights = [] <;>
    by_cases he : st.environment_cache = [] <;>
      simp [buildDoc, memberLookup, hl, he]

lemma matInv_init (M : Remap Mesh) (MA : Remap MaterialInfo) :
    MatInv M MA { initialRemapState with materialR := MA, meshR := M } [] := by
  refine ⟨rfl, rfl, fun r => Iff.rfl, rfl, ?_, ?_⟩
  · intro i hi
    exact absurd hi (List.not_mem_nil i)
  · intro j hj
    exact absurd hj (Nat.not_lt_zero j)

lemma matInv_env (M : Remap Mesh) (MA : Remap MaterialInfo) (o : Oracles)
    (cube reflection irradiance : String) (inten : F) (fc : V3) (ff : F)
    (comp : TextureCompressionFamily) (q : Nat) (s : RemapState)
    (hs : MatInv M MA s []) :
    MatInv M MA
      (emit_environment o cube reflection irradiance inten fc ff comp q s)
      [] := by
  obtain ⟨f1, f2, f3, f4, f5⟩ :=
    emit_environment_fields o cube reflection irradiance inten fc ff comp q s
  obtain ⟨h1, h2, h3, h4, h5, h6⟩ := hs
  refine ⟨f1.trans h1, f2.trans h2, ?_, ?_, ?_, ?_⟩
  · intro r
    rw [f4]
    exact h3 r
  · rw [f3, f4]
    exact h4
  · intro i hi r hr
    rw [f5] at hi
    rw [f4]
    exact h5 i hi r hr
  · intro j hj hjn
    rw [f3] at hj ⊢
    rw [f4] at hjn
    exact h6 j hj hjn

lemma matInv_base_state (o : Oracles) (scene : SceneInformation)
    (options : ExportOptions) :
    MatInv (export_mesh_remap o scene) (export_mat_remap o scene)
      (export_base_state o scene options) [] := by
  unfold export_base_state
  split
  · exact matInv_env _ _ o _ _ _ _ _ _ _ _ _ (matInv_init _ _)
  · exact matInv_init _ _

/-- The invariant at the end of a successful run_export_state: the material
hash set is extensionally the walked reference list, the cache length is its
maxPlus, and unreferenced in-range slots are value-initialized. -/
lemma run_export_state_inv (o : Oracles) (scene : SceneInformation)
    (options : ExportOptions) (nj : List Json) (st : RemapState)
    (h : run_export_state o scene options = .ok (nj, st)) :
    MatInv st.meshR st.materialR st
      (walkedRefs scene st.meshR st.materialR) := by
  unfold run_export_state at h
  obtain ⟨hInv, -⟩ := walk_nodes_inv o options scene _ _ scene.nodes 0 _
    [] nj st (matInv_base_state o scene options) h
  rw [hInv.1, hInv.2.1]
  simpa [walkedRefs] using hInv

/-- The document of a successful export is buildDoc at the walked state. -/
lemma export_doc_eq (o : Oracles) (scene : SceneInformation) (path : String)
    (options : ExportOptions) (nj : List Json) (st : RemapState)
    (out : ExportOutput)
    (hrun : run_export_state o scene options = .ok (nj, st))
    (hout : export_scene_to_glb o scene path options = .ok (some out)) :
    out.doc = buildDoc o scene st nj := by
  unfold export_scene_to_glb at hout
  simp only [hrun] at hout
  by_cases hco : o.canOpen = false
  · rw [if_pos hco] at hout
    cases hout
  · rw [if_neg hco] at hout
    by_cases hcm : o.canMap = false
    · rw [if_pos hcm] at hout
      cases hout
    · rw [if_neg hcm] at hout
      have h2 : some
          ({ doc := buildDoc o scene st nj,
             glb := glb_serialize
               (o.serializeJson (Json.obj (buildDoc o scene st nj)))
               st.glb_buffer_data } : ExportOutput) = some out :=
        Except.ok.inj hout
      rw [← Option.some.inj h2]

/-- A value-initialized material slot serializes to the bare
pbrMetallicRoughness object. -/
lemma materialJson_default :
    materialJson defaultEmittedMaterial = defaultMaterialJson := by
  rfl

/-- C9: the materials JSON array has exactly maxPlus(walked references)
entries; a canonical material not referenced by any walked mesh is absent
when its index is out of range and serializes as the all-default entry when
in range; the document's materials member is exactly this array. -/
theorem c9_materials_array_shape (o : Oracles) (scene : SceneInformation)
    (options : ExportOptions) (st : RemapState)
    (h : exportStateOpt o scene options = some st) :
    (materialsJson st.material_cache).length =
      maxPlus (walkedRefs scene st.meshR st.materialR) ∧
    (∀ j, j < maxPlus (walkedRefs scene st.meshR st.materialR) →
      j ∉ walkedRefs scene st.meshR st.materialR →
      nthD (materialsJson st.material_cache) j defaultMaterialJson =
        defaultMaterialJson) ∧
    materialJson defaultEmittedMaterial = defaultMaterialJson ∧
    (∀ path out, export_scene_to_glb o scene path options = .ok (some out) →
      memberLookup "materials" out.doc =
        some (Json.arr (materialsJson st.material_cache))) := by
  unfold exportStateOpt at h
  cases hrun : run_export_state o scene options with
  | error e =>
      rw [hrun] at h
      cases h
  | ok p =>
      obtain ⟨nj0, st0⟩ := p
      rw [hrun] at h
      have h' : some st0 = some st := h
      obtain rfl := Option.some.inj h'
      obtain ⟨h1, h2, h3, h4, h5, h6⟩ := run_export_state_inv o scene options
        nj0 st0 hrun
      have hlen : st0.material_cache.length =
          maxPlus (walkedRefs scene st0.meshR st0.materialR) :=
        h4.trans (maxPlus_congr _ _ h3)
      refine ⟨?_, ?_, materialJson_default, ?_⟩
      · rw [materialsJson, List.length_map]
        exact hlen
      · intro j hj hjn
        have hjh : j ∉ st0.material_hash := fun hmem => hjn ((h3 j).1 hmem)
        have hjl : j < st0.material_cache.length := by
          rw [hlen]
          exact hj
        have hslot := h6 j hjl hjh
        rw [materialsJson, nthD_map_of_lt materialJson st0.material_cache j
          defaultEmittedMaterial defaultMaterialJson hjl, hslot,
          materialJson_default]
      · intro path out hout
        rw [export_doc_eq o scene path options nj0 st0 out hrun hout]
        exact memberLookup_materials o scene st0 nj0

/-- C9 witness: on the concrete one-mesh scene the export succeeds and the
materials array length equals maxPlus of the walked references (here 1). -/
theorem c9_materials_array_shape_witness :
    exportStateOpt oracleZ sceneW9 optsW9 = some stW9 ∧
    (materialsJson stW9.material_cache).length =
      maxPlus (walkedRefs sceneW9 stW9.meshR stW9.materialR) ∧
    maxPlus (walkedRefs sceneW9 stW9.meshR stW9.materialR) = 1 := by
  have h : exportStateOpt oracleZ sceneW9 optsW9 = some stW9 := by decide
  exact ⟨h, (c9_materials_array_shape oracleZ sceneW9 optsW9 stW9 h).1,
    by decide⟩

lemma emit_sampler_image_cache (o : Oracles) (sp : StockSampler)
    (s : RemapState) :
    (emit_sampler o sp s).2.image_cache = s.image_cache := by
  unfold emit_sampler
  cases h : alookup (o.hashSampler sp) s.sampler_hash <;> simp [h]

lemma emit_image_sampler_cache (o : Oracles) (tex : MaterialTexture)
    (ty : TextureRole) (comp : TextureCompressionFamily) (q : Nat)
    (mode : TextureMode) (s : RemapState) :
    (emit_image o tex ty comp q mode s).2.sampler_cache = s.sampler_cache := by
  unfold emit_image
  cases h : alookup (o.hashImage tex.path ty comp q mode) s.image_hash <;>
    simp [h]

lemma emit_image_cache_mem (o : Oracles) (tex : MaterialTexture)
    (ty : TextureRole) (comp : TextureCompressionFamily) (q : Nat)
    (mode : TextureMode) (s : RemapState) (img : EmittedImage)
    (h : img ∈ (emit_image o tex ty comp q mode s).2.image_cache) :
    img ∈ s.image_cache ∨ (img.mode = mode ∧ img.type = ty) := by
  unfold emit_image at h
  cases hl : alookup (o.hashImage tex.path ty comp q mode) s.image_hash with
  | some i =>
      simp only [hl] at h
      exact Or.inl h
  | none =>
      simp only [hl, List.mem_append, List.mem_singleton] at h
      rcases h with h | h
      · exact Or.inl h
      · subst h
        exact Or.inr ⟨rfl, rfl⟩

lemma emit_sampler_cache_mem (o : Oracles) (sp : StockSampler)
    (s : RemapState) (x : EmittedSampler)
    (h : x ∈ (emit_sampler o sp s).2.sampler_cache) :
    x ∈ s.sampler_cache ∨ x = sampler_record sp := by
  unfold emit_sampler at h
  cases hl : alookup (o.hashSampler sp) s.sampler_hash with
  | some i =>
      simp only [hl] at h
      exact Or.inl h
  | none =>
      simp only [hl, List.mem_append, List.mem_singleton] at h
      exact h

lemma emit_texture_cache_mem (o : Oracles) (tex : MaterialTexture)
    (sp : StockSampler) (ty : TextureRole) (comp : TextureCompressionFamily)
    (q : Nat) (mode : TextureMode) (s : RemapState) :
    (∀ img ∈ (emit_texture o tex sp ty comp q mode s).2.image_cache,
      img ∈ s.image_cache ∨ (img.mode = mode ∧ img.type = ty)) ∧
    (∀ x ∈ (emit_texture o tex sp ty comp q mode s).2.sampler_cache,
      x ∈ s.sampler_cache ∨ x = sampler_record sp) := by
  unfold emit_texture
  rcases hi : emit_image o tex ty comp q mode s with ⟨ii, s1⟩
  rcases hs : emit_sampler o sp s1 with ⟨si, s2⟩
  have himg2 : s2.image_cache = s1.image_cache := by
    have := emit_sampler_image_cache o sp s1
    rw [hs] at this
    exact this
  have hsam1 : s1.sampler_cache = s.sampler_cache := by
    have := emit_image_sampler_cache o tex ty comp q mode s
    rw [hi] at this
    exact this
  cases ht : alookup (o.hashTexture ii si) s2.texture_hash <;>
    simp only [hi, hs, ht] <;>
    refine ⟨?_, ?_⟩ <;> intro y hy
  · rw [himg2] at hy
    have := emit_image_cache_mem o tex ty comp q mode s y
    rw [hi] at this
    exact this hy
  · have := emit_sampler_cache_mem o sp s1 y
    rw [hs] at this
    rcases this hy with hmem | heq
    · rw [hsam1] at hmem
      exact Or.inl hmem
    · exact Or.inr heq
  · rw [himg2] at hy
    have := emit_image_cache_mem o tex ty comp q mode s y
    rw [hi] at this
    exact this hy
  · have := emit_sampler_cache_mem o sp s1 y
    rw [hs] at this
    rcases this hy with hmem | heq
    · rw [hsam1] at hmem
      exact Or.inl hmem
    · exact Or.inr heq

lemma env_slot_sign (o : Oracles) (path : String)
    (comp : TextureCompressionFamily) (q : Nat) (s : RemapState) :
    (0 ≤ (env_texture_slot o path comp q s).1) ↔ path ≠ "" := by
  unfold env_texture_slot
  by_cases h : path ≠ ""
  · rw [if_pos h]
    rcases he : emit_texture o ⟨path, idMapping⟩ .linearClamp .emissive comp q
        .hdr s with ⟨t, s'⟩
    exact ⟨fun _ => h, fun _ => Int.ofNat_nonneg t⟩
  · rw [if_neg h]
    refine ⟨fun hc => ?_, fun hc => absurd hc h⟩
    have hc' : (0 : Int) ≤ -1 := hc
    exact absurd hc' (by decide)

lemma env_slot_cache_mem (o : Oracles) (path : String)
    (comp : TextureCompressionFamily) (q : Nat) (s : RemapState) :
    (∀ img ∈ (env_texture_slot o path comp q s).2.image_cache,
      img ∈ s.image_cache ∨
        (img.mode = TextureMode.hdr ∧ img.type = TextureRole.emissive)) ∧
    (∀ x ∈ (env_texture_slot o path comp q s).2.sampler_cache,
      x ∈ s.sampler_cache ∨ x = linearClampSampler) := by
  unfold env_texture_slot
  by_cases h : path ≠ ""
  · rw [if_pos h]
    rcases he : emit_texture o ⟨path, idMapping⟩ .linearClamp .emissive comp q
        .hdr s with ⟨t, s'⟩
    have := emit_texture_cache_mem o ⟨path, idMapping⟩ .linearClamp .emissive
      comp q .hdr s
    rw [he] at this
    exact ⟨this.1, fun x hx => (this.2 x hx).imp id (fun hh => hh)⟩
  · rw [if_neg h]
    exact ⟨fun img hi => Or.inl hi, fun x hx => Or.inl hx⟩

lemma env_slot_env_cache (o : Oracles) (path : String)
    (comp : TextureCompressionFamily) (q : Nat) (s : RemapState) :
    (env_texture_slot o path comp q s).2.environment_cache =
      s.environment_cache :=
  (matFrame_env_texture_slot o path comp q s).1.1.2.2

/-- RemapState::emit_environment appends exactly one environment record; each
texture slot is non-negative exactly when its path is non-empty, and the
scalar fields are copied through. -/
lemma emit_environment_spec (o : Oracles)
    (cube reflection irradiance : String) (inten : F) (fc : V3) (ff : F)
    (comp : TextureCompressionFamily) (q : Nat) (s : RemapState) :
    ∃ env : EmittedEnvironment,
      (emit_environment o cube reflection irradiance inten fc ff comp q
          s).environment_cache = s.environment_cache ++ [env] ∧
      (0 ≤ env.cube ↔ cube ≠ "") ∧
      (0 ≤ env.reflection ↔ reflection ≠ "") ∧
      (0 ≤ env.irradiance ↔ irradiance ≠ "") ∧
      env.intensity = inten ∧ env.fog_color = fc ∧ env.fog_falloff = ff := by
  unfold emit_environment
  rcases h1 : env_texture_slot o cube comp q s with ⟨c1, s1⟩
  rcases h2 : env_texture_slot o reflection comp q s1 with ⟨c2, s2⟩
  rcases h3 : env_texture_slot o irradiance comp q s2 with ⟨c3, s3⟩
  refine ⟨⟨c1, c2, c3, inten, fc, ff⟩, ?_, ?_, ?_, ?_, rfl, rfl, rfl⟩
  · have e1 := env_slot_env_cache o cube comp q s
    have e2 := env_slot_env_cache o reflection comp q s1
    have e3 := env_slot_env_cache o irradiance comp q s2
    rw [h1] at e1
    rw [h2] at e2
    rw [h3] at e3
    simp only [h1, h2, h3]
    rw [e3, e2, e1]
  · have := env_slot_sign o cube comp q s
    rw [h1] at this
    exact this
  · have := env_slot_sign o reflection comp q s1
    rw [h2] at this
    exact this
  · have := env_slot_sign o irradiance comp q s2
    rw [h3] at this
    exact this

/-- Cache-membership facts of emit_environment: every image it adds is HDR at
the Emissive role and every sampler it adds is the LinearClamp record. -/
lemma emit_environment_cache_mem (o : Oracles)
    (cube reflection irradiance : String) (inten : F) (fc : V3) (ff : F)
    (comp : TextureCompressionFamily) (q : Nat) (s : RemapState) :
    (∀ img ∈ (emit_environment o cube reflection irradiance inten fc ff comp
        q s).image_cache,
      img ∈ s.image_cache ∨
        (img.mode = TextureMode.hdr ∧ img.type = TextureRole.emissive)) ∧
    (∀ x ∈ (emit_environment o cube reflection irradiance inten fc ff comp
        q s).sampler_cache,
      x ∈ s.sampler_cache ∨ x = linearClampSampler) := by
  unfold emit_environment
  rcases h1 : env_texture_slot o cube comp q s with ⟨c1, s1⟩
  rcases h2 : env_texture_slot o reflection comp q s1 with ⟨c2, s2⟩
  rcases h3 : env_texture_slot o irradiance comp q s2 with ⟨c3, s3⟩
  have m1 := env_slot_cache_mem o cube comp q s
  have m2 := env_slot_cache_mem o reflection comp q s1
  have m3 := env_slot_cache_mem o irradiance comp q s2
  rw [h1] at m1
  rw [h2] at m2
  rw [h3] at m3
  simp only [h1, h2, h3]
  refine ⟨?_, ?_⟩
  · intro img hi
    rcases m3.1 img hi with hm | hh
    · rcases m2.1 img hm with hm' | hh
      · exact m1.1 img hm'
      · exact Or.inr hh
    · exact Or.inr hh
  · intro x hx
    rcases m3.2 x hx with hm | hh
    · rcases m2.2 x hm with hm' | hh
      · exact m1.2 x hm'
      · exact Or.inr hh
    · exact Or.inr hh

/-- Environment-cache shape of the pre-walk state: empty iff the cube path is
empty, otherwise exactly one record with per-slot sign iffs. -/
lemma base_state_env (o : Oracles) (scene : SceneInformation)
    (options : ExportOptions) :
    (options.environment.cube = "" →
      (export_base_state o scene options).environment_cache = []) ∧
    (options.environment.cube ≠ "" →
      ∃ env : EmittedEnvironment,
        (export_base_state o scene options).environment_cache = [env] ∧
        (0 ≤ env.cube ↔ options.environment.cube ≠ "") ∧
        (0 ≤ env.reflection ↔ options.environment.reflection ≠ "") ∧
        (0 ≤ env.irradiance ↔ options.environment.irradiance ≠ "")) := by
  unfold export_base_state
  split
  case isTrue hc =>
    refine ⟨fun hemp => absurd hemp hc, fun _ => ?_⟩
    obtain ⟨env, hcache, hs1, hs2, hs3, -, -, -⟩ :=
      emit_environment_spec o options.environment.cube
        options.environment.reflection options.environment.irradiance
        options.environment.intensity options.environment.fog_color
        options.environment.fog_falloff options.environment.compression
        options.environment.texcomp_quality (export_init_state o scene)
    refine ⟨env, ?_, hs1, hs2, hs3⟩
    rw [hcache]
    rfl
  case isFalse hc =>
    refine ⟨fun _ => rfl, fun hne => absurd hne hc⟩

/-- Environment-cache shape of the final state of a successful export run:
the node walk never touches the environment cache, so the pre-walk shape
survives. -/
lemma run_export_state_env (o : Oracles) (scene : SceneInformation)
    (options : ExportOptions) (nj : List Json) (st : RemapState)
    (h : run_export_state o scene options = .ok (nj, st)) :
    (options.environment.cube = "" → st.environment_cache = []) ∧
    (options.environment.cube ≠ "" →
      ∃ env : EmittedEnvironment,
        st.environment_cache = [env] ∧
        (0 ≤ env.cube ↔ options.environment.cube ≠ "") ∧
        (0 ≤ env.reflection ↔ options.environment.reflection ≠ "") ∧
        (0 ≤ env.irradiance ↔ options.environment.irradiance ≠ "")) := by
  unfold run_export_state at h
  obtain ⟨-, henv⟩ := walk_nodes_inv o options scene _ _ scene.nodes 0 _
    [] nj st (matInv_base_state o scene options) h
  rw [henv]
  exact base_state_env o scene options

/-- C10: an environment record is emitted iff options.environment.cube is
non-empty; with an empty cube path the extras member is absent even when the
reflection or irradiance paths are set; with a non-empty cube path exactly
one record is emitted, its reflection/irradiance slots filled iff their own
paths are non-empty, and every environment texture goes through HDR mode at
the Emissive role with the LinearClamp sampler. -/
theorem c10_environment_iff_cube (o : Oracles) (scene : SceneInformation)
    (options : ExportOptions) (st : RemapState)
    (h : exportStateOpt o scene options = some st) :
    (options.environment.cube = "" →
      st.environment_cache = [] ∧
      ∀ path out, export_scene_to_glb o scene path options = .ok (some out) →
        memberLookup "extras" out.doc = none) ∧
    (options.environment.cube ≠ "" →
      ∃ env : EmittedEnvironment,
        st.environment_cache = [env] ∧
        0 ≤ env.cube ∧
        (0 ≤ env.reflection ↔ options.environment.reflection ≠ "") ∧
        (0 ≤ env.irradiance ↔ options.environment.irradiance ≠ "") ∧
        ∀ path out, export_scene_to_glb o scene path options =
            .ok (some out) →
          memberLookup "extras" out.doc =
            some (Json.obj [("environments", Json.arr [envJson env])])) ∧
    (∀ s2 img, img ∈ (emit_environment o options.environment.cube
        options.environment.reflection options.environment.irradiance
        options.environment.intensity options.environment.fog_color
        options.environment.fog_falloff options.environment.compression
        options.environment.texcomp_quality s2).image_cache →
      img ∈ s2.image_cache ∨
        (img.mode = TextureMode.hdr ∧ img.type = TextureRole.emissive)) ∧
    (∀ s2 x, x ∈ (emit_environment o options.environment.cube
        options.environment.reflection options.environment.irradiance
        options.environment.intensity options.environment.fog_color
        options.environment.fog_falloff options.environment.compression
        options.environment.texcomp_quality s2).sampler_cache →
      x ∈ s2.sampler_cache ∨ x = linearClampSampler) := by
  unfold exportStateOpt at h
  cases hrun : run_export_state o scene options with
  | error e =>
      rw [hrun] at h
      cases h
  | ok p =>
      obtain ⟨nj0, st0⟩ := p
      rw [hrun] at h
      have h' : some st0 = some st := h
      obtain rfl := Option.some.inj h'
      have henvs := run_export_state_env o scene options nj0 st0 hrun
      refine ⟨?_, ?_, ?_, ?_⟩
      · intro hemp
        have hcache := henvs.1 hemp
        refine ⟨hcache, ?_⟩
        intro path out hout
        rw [export_doc_eq o scene path options nj0 st0 out hrun hout,
          memberLookup_extras, hcache]
        simp
      · intro hne
        obtain ⟨env, hcache, hs1, hs2, hs3⟩ := henvs.2 hne
        refine ⟨env, hcache, hs1.mpr hne, hs2, hs3, ?_⟩
        intro path out hout
        rw [export_doc_eq o scene path options nj0 st0 out hrun hout,
          memberLookup_extras, hcache]
        simp
      · intro s2 img hi
        exact (emit_environment_cache_mem o options.environment.cube
          options.environment.reflection options.environment.irradiance
          options.environment.intensity options.environment.fog_color
          options.environment.fog_falloff options.environment.compression
          options.environment.texcomp_quality s2).1 img hi
      · intro s2 x hx
        exact (emit_environment_cache_mem o options.environment.cube
          options.environment.reflection options.environment.irradiance
          options.environment.intensity options.environment.fog_color
          options.environment.fog_falloff options.environment.compression
          options.environment.texcomp_quality s2).2 x hx

/-- C10 witness: with a non-empty cube path on the concrete options the
export succeeds and emits a (single, non-empty) environment record. -/
theorem c10_environment_iff_cube_witness :
    exportStateOpt oracleZ sceneW10 optsW10 = some stW10 ∧
    optsW10.environment.cube ≠ "" ∧
    stW10.environment_cache ≠ [] := by
  have h : exportStateOpt oracleZ sceneW10 optsW10 = some stW10 := by decide
  refine ⟨h, by decide, ?_⟩
  obtain ⟨env, he, -⟩ :=
    (c10_environment_iff_cube oracleZ sceneW10 optsW10 stW10 h).2.1 (by decide)
  rw [he]
  simp

/-- C5 counterexample: an unsupported vertex format makes the export fail by
a propagating exception, but the function does NOT return false (no
`return false` path is taken), contradicting the claimed behavior. -/
theorem c5_counterexample :
    exportErr (export_scene_to_glb oracleZ sceneBad5 "scene.glb" optsW9) =
      some "Unsupported format." ∧
    returnedFalse (export_scene_to_glb oracleZ sceneBad5 "scene.glb"
      optsW9) = false := by
  decide

/-- C5 amended.  export_scene_to_glb has no handler, so a scene-assembly
exception (such as the unsupported-format throw of the counterexample)
propagates out of the function uncaught, and an export that fails this way
never takes a `return false` path; the function returns false only when the
output file cannot be opened or mapped.  The swizzle-constant and
material-role checks, by contrast, run inside the per-image worker-pool
analysis tasks — modelled by the standalone analysis pipeline, not by the
export path — where they fail that task with exactly the claimed error
values. -/
theorem c5_amended_errors_thrown_not_returned (o : Oracles)
    (scene : SceneInformation) (path : String) (options : ExportOptions) :
    (∀ e, run_export_state o scene options = .error e →
      export_scene_to_glb o scene path options = .error e) ∧
    (returnedFalse (export_scene_to_glb o scene path options) = true →
      o.canOpen = false ∨ o.canMap = false) ∧
    (∀ e, exportErr (export_scene_to_glb o scene path options) = some e →
      returnedFalse (export_scene_to_glb o scene path options) = false) ∧
    (∀ sw, conv_swizzle sw = .error "Unrecognized swizzle parameter." ↔
      (sw ≠ .r ∧ sw ≠ .g ∧ sw ≠ .b ∧ sw ≠ .a)) ∧
    (∀ family res, res.type = TextureRole.count →
      family ≠ TextureCompressionFamily.uncompressed →
      deduce_compression family res = .error "Invalid material type.") := by
  refine ⟨?_, ?_, ?_, ?_, ?_⟩
  · intro e he
    unfold export_scene_to_glb
    rw [he]
  · intro h
    unfold export_scene_to_glb at h
    cases hrun : run_export_state o scene options with
    | error e =>
        simp only [hrun] at h
        cases h
    | ok p =>
        obtain ⟨nj, st⟩ := p
        simp only [hrun] at h
        by_cases hco : o.canOpen = false
        · exact Or.inl hco
        · rw [if_neg hco] at h
          by_cases hcm : o.canMap = false
          · exact Or.inr hcm
          · rw [if_neg hcm] at h
            cases h
  · intro e he
    cases hr : export_scene_to_glb o scene path options with
    | error e' => rfl
    | ok x =>
        rw [hr] at he
        cases he
  · intro sw
    cases sw <;> simp [conv_swizzle]
  · intro family res hrole hfam
    cases family with
    | uncompressed => exact absurd rfl hfam
    | bc =>
        unfold deduce_compression
        rw [hrole]
    | astc =>
        unfold deduce_compression
        rw [hrole]

/-- C5 witness: a concrete export that takes the `return false` path, shown
by the amended theorem to be an output open/map failure. -/
theorem c5_amended_errors_thrown_not_returned_witness :
    returnedFalse (export_scene_to_glb oracleNoOpen sceneW10 "s.glb" optsW9)
        = true ∧
    (oracleNoOpen.canOpen = false ∨ oracleNoOpen.canMap = false) := by
  have h : returnedFalse (export_scene_to_glb oracleNoOpen sceneW10 "s.glb"
      optsW9) = true := by decide
  exact ⟨h, (c5_amended_errors_thrown_not_returned oracleNoOpen sceneW10
    "s.glb" optsW9).2.1 h⟩

lemma set_of_le (l : List α) (i : Nat) (v : α) (h : l.length ≤ i) :
    l.set i v = l := by
  induction l generalizing i with
  | nil => rfl
  | cons x xs ih =>
      cases i with
      | zero => cases h
      | succ i' => simp [List.set, ih i' (by simpa using h)]

/-- After a successful emit_accessor the accessor hash maps the
(view, format, offset, stride, count) fingerprint to the returned index. -/
lemma emit_accessor_hash_hit (o : Oracles) (v : Nat) (fmt : VkFormat)
    (off stride count : Nat) (s s1 : RemapState) (i : Nat)
    (h : emit_accessor o v fmt off stride count s = .ok (i, s1)) :
    alookup (o.hashAccessor v fmt off stride count) s1.accessor_hash =
      some i := by
  unfold emit_accessor at h
  cases hl : alookup (o.hashAccessor v fmt off stride count)
      s.accessor_hash with
  | some j =>
      simp only [hl] at h
      cases Except.ok.inj h
      exact hl
  | none =>
      simp only [hl] at h
      cases hc : get_accessor_component fmt with
      | error e =>
          simp only [hc] at h
          cases h
      | ok comp =>
          cases ht : get_accessor_type fmt with
          | error e =>
              simp only [hc, ht] at h
              cases h
          | ok ty =>
              simp only [hc, ht] at h
              cases Except.ok.inj h
              simp [alookup]

/-- setAccessorAABB is last-writer-wins: a second write to the same slot
erases the first entirely. -/
lemma setAccessorAABB_overwrite (s : RemapState) (i : Nat) (a1 a2 : AABB) :
    setAccessorAABB (setAccessorAABB s i a1) i a2 =
      setAccessorAABB s i a2 := by
  by_cases hi : i < s.accessor_cache.length
  · simp only [setAccessorAABB, nthD_set_self _ _ _ _ hi, List.set_set]
  · have hn := Nat.le_of_not_lt hi
    simp only [setAccessorAABB, set_of_le _ _ _ hn]

/-- C8: accessor deduplication ignores AABB data.  After a mesh emits its
Position accessor and records its AABB, a second mesh resolving to the same
(view, format, offset, stride, count) fingerprint gets the SAME accessor
index with no state change; its setAccessorAABB then silently replaces the
first mesh's AABB (last writer wins), and the min/max arrays serialized for
the shared accessor are computed from the surviving AABB alone. -/
theorem c8_accessor_dedup_ignores_aabb (o : Oracles) (s : RemapState)
    (v : Nat) (fmt : VkFormat) (off stride count : Nat) (a1 a2 : AABB)
    (i : Nat) (s1 : RemapState)
    (h : emit_accessor o v fmt off stride count s = .ok (i, s1)) :
    emit_accessor o v fmt off stride count (setAccessorAABB s1 i a1) =
      .ok (i, setAccessorAABB s1 i a1) ∧
    setAccessorAABB (setAccessorAABB s1 i a1) i a2 =
      setAccessorAABB s1 i a2 ∧
    (∀ r : EmittedAccessor, typeComponents r.type ≠ 0 →
      memberLookup "min" (objMembers (accessorJson
          { r with aabb := a2, use_aabb := true })) =
        some (.arr ((aabbMinArr a2).take (typeComponents r.type))) ∧
      memberLookup "max" (objMembers (accessorJson
          { r with aabb := a2, use_aabb := true })) =
        some (.arr ((aabbMaxArr a2).take (typeComponents r.type)))) := by
  refine ⟨?_, setAccessorAABB_overwrite s1 i a1 a2, ?_⟩
  · have hhit := emit_accessor_hash_hit o v fmt off stride count s s1 i h
    unfold emit_accessor
    have hsame : (setAccessorAABB s1 i a1).accessor_hash =
        s1.accessor_hash := rfl
    rw [hsame]
    simp only [hhit]
  · intro r hcomp
    simp [accessorJson, objMembers, memberLookup, hcomp]

/-- C8 witness: a concrete first emission, on which the theorem gives the
dedup hit and the last-writer-wins overwrite. -/
theorem c8_accessor_dedup_ignores_aabb_witness :
    emit_accessor oracleZ 0 .r32g32b32Sfloat 0 12 1 initialRemapState =
      .ok (0, s1W8) ∧
    setAccessorAABB (setAccessorAABB s1W8 0 aabb1W8) 0 aabb2W8 =
      setAccessorAABB s1W8 0 aabb2W8 := by
  have h : emit_accessor oracleZ 0 .r32g32b32Sfloat 0 12 1
      initialRemapState = .ok (0, s1W8) := by rfl
  exact ⟨h, (c8_accessor_dedup_ignores_aabb oracleZ initialRemapState 0
    .r32g32b32Sfloat 0 12 1 aabb1W8 aabb2W8 0 s1W8 h).2.1⟩
